import Mathlib

/-!
Tensor marshalling layer of tflite_elixir

A shallow embedding of `c_src/tflite/tflite_tflitetensor.cpp`: the helpers
`_tflitetensor_shape`, `_tflitetensor_shape_signature`, `_tflitetensor_type`,
`_tflitetensor_quantization_params`, `_tflitetensor_sparsity_params` and the
NIF entry points `tflitetensor_type`, `tflitetensor_dims`,
`tflitetensor_quantization_params`, `tflitetensor_to_binary`,
`tflitetensor_set_data`.

Conventions of the embedding

* A C pointer is an `Option`: `none` is `nullptr`.
* A C function that dereferences a null pointer, or reads or writes outside
  the object a pointer refers to, has no defined result; the embedding makes
  that explicit as `Except.error` carrying a `Fault`.  `Except.ok` is a normal
  return.
* A helper `int f(env, tensor, ERL_NIF_TERM &out)` becomes a function taking
  the value held by `out` before the call (`none` for an uninitialised
  variable) and returning the status together with the value held afterwards.
* Host allocation (`enif_alloc`, `enif_alloc_binary`) may fail; every
  allocation site of the file has its own flag in `Env`.
* Native memory behind tensor pointers is a `Heap`; only
  `tflitetensor_set_data` changes it.
-/

namespace TFLite

/-! ## Host terms -/

/-- Host runtime terms built or inspected by the file.  `double` carries the
bit pattern of the single-precision value that was widened; `resource` is a
resource handle, with the resource type it was created under and the pointer
stored in its `erlang_nif_res<TfLiteTensor *>` object (`val`, an address on
the native heap, `none` when null); `badarg` is the exception value of
`enif_make_badarg`. -/
inductive Term where
  | atom (name : String)
  | int (v : Int)
  | double (f32bits : Nat)
  | string (s : String)
  | binary (bytes : List UInt8)
  | list (xs : List Term)
  | tuple (xs : List Term)
  | map (kvs : List (Term × Term))
  | resource (rtype : String) (val : Option Nat)
  | badarg

/-- Ways a C call can leave defined behaviour. -/
inductive Fault where
  | nullDeref
  | outOfBounds
  | danglingPointer
  | uninitialised
  deriving DecidableEq, Repr

/-! ## Native structures (tensorflow/lite/c/common.h) -/

/-- The struct `TfLiteIntArray` is `int size` followed by the flexible array
`int data[]`; the object holds exactly `size` elements, so `size` is the
length of `data`. -/
structure TfLiteIntArray where
  data : List Int

/-- Field `size` of a `TfLiteIntArray`. -/
def TfLiteIntArray.size (a : TfLiteIntArray) : Nat := a.data.length

/-- The struct `TfLiteFloatArray`: `int size; float data[]`.  A float is kept
as its 32-bit pattern. -/
structure TfLiteFloatArray where
  data : List Nat

/-- Field `size` of a `TfLiteFloatArray`. -/
def TfLiteFloatArray.size (a : TfLiteFloatArray) : Nat := a.data.length

/-- The enum `TfLiteQuantizationType`. -/
inductive TfLiteQuantizationType where
  | kTfLiteNoQuantization
  | kTfLiteAffineQuantization
  deriving DecidableEq, Repr

/-- The struct `TfLiteAffineQuantization`. -/
structure TfLiteAffineQuantization where
  scale : Option TfLiteFloatArray
  zero_point : Option TfLiteIntArray
  quantized_dimension : Int

/-- The struct `TfLiteQuantization`; `params` is the `void *` that is read as
a `TfLiteAffineQuantization *`. -/
structure TfLiteQuantization where
  type : TfLiteQuantizationType
  params : Option TfLiteAffineQuantization

/-- The enum `TfLiteDimensionType`. -/
inductive TfLiteDimensionType where
  | kTfLiteDimDense
  | kTfLiteDimSparseCSR
  deriving DecidableEq, Repr

/-- The struct `TfLiteDimensionMetadata`. -/
structure TfLiteDimensionMetadata where
  format : TfLiteDimensionType
  dense_size : Int
  array_segments : Option TfLiteIntArray
  array_indices : Option TfLiteIntArray

/-- The struct `TfLiteSparsity`.  `dim_metadata` points to an array of
entries; `dim_metadata_size` is the count the code loops to. -/
structure TfLiteSparsity where
  traversal_order : Option TfLiteIntArray
  block_map : Option TfLiteIntArray
  dim_metadata : Option (List TfLiteDimensionMetadata)
  dim_metadata_size : Nat

/-- The fields of `TfLiteTensor` the file reads.  `data` is the pointer union
`TfLitePtrUnion` (`data.raw` and `data.data` are the same pointer): `none`
before the tensors are allocated, otherwise the bytes of the buffer.  `type`
is the numeric `TfLiteType`. -/
structure TfLiteTensor where
  type : Nat
  data : Option (List UInt8)
  dims : TfLiteIntArray
  bytes : Nat
  quantization : TfLiteQuantization
  sparsity : Option TfLiteSparsity
  dims_signature : Option TfLiteIntArray

/-- Native memory: the tensor found at an address, if any. -/
abbrev Heap := Nat → Option TfLiteTensor

/-- Store a tensor at an address. -/
def Heap.write (h : Heap) (p : Nat) (t : TfLiteTensor) : Heap :=
  fun q => if q = p then some t else h q

/-! ## Environment -/

/-- What the file takes from its surroundings: the outcome of each host
allocation site, the byte order of the machine, and the type-tag table of
`helper.h`. -/
structure Env where
  /-- Outcome of `enif_alloc` in `_tflitetensor_shape`. -/
  alloc_shape : Bool
  /-- Buffer of the list built in `_tflitetensor_shape_signature`. -/
  alloc_shape_signature : Bool
  /-- Buffer of the `scale` list. -/
  alloc_scale : Bool
  /-- Buffer of the `zero_point` list. -/
  alloc_zero_point : Bool
  /-- Buffer of the `traversal_order` list. -/
  alloc_traversal_order : Bool
  /-- Buffer of the `block_map` list. -/
  alloc_block_map : Bool
  /-- Outcome of `enif_alloc` of the `dim_metadata` term array. -/
  alloc_dim_metadata : Bool
  /-- Buffer of the `array_segments` list of dimension `i`. -/
  alloc_array_segments : Nat → Bool
  /-- Buffer of the `array_indices` list of dimension `i`. -/
  alloc_array_indices : Nat → Bool
  /-- Outcome of `enif_alloc_binary` in `tflitetensor_to_binary`. -/
  alloc_binary : Bool
  /-- Byte order used when an object is read through a wider pointer. -/
  little_endian : Bool
  /-- The function `tensor_type_to_erl_term` of `helper.h`: the term for a
  `TfLiteType`, `none` when it reports failure. -/
  tensor_type_to_erl_term : Nat → Option Term

/-! ## Helpers of `nif_utils.hpp` -/

namespace erlang.nif

/-- Modelled from the spec: `erlang::nif::error` of `nif_utils.hpp`, which is
not among the sources; "wraps a failure with a human-readable reason
string". -/
def error (msg : String) : Term := Term.tuple [Term.atom "error", Term.string msg]

/-- Modelled from the spec: `erlang::nif::ok(env, term)` of `nif_utils.hpp`;
"wraps a successful result" with a payload. -/
def ok (v : Term) : Term := Term.tuple [Term.atom "ok", v]

/-- Modelled from the spec: `erlang::nif::ok(env)` of `nif_utils.hpp`; a
successful result without a payload. -/
def ok0 : Term := Term.atom "ok"

/-- Modelled from the spec: `erlang::nif::atom` of `nif_utils.hpp`. -/
def atom (name : String) : Term := Term.atom name

/-- Modelled from the spec: `erlang::nif::make(env, long)` of `nif_utils.hpp`,
the host integer of a native integer. -/
def make (v : Int) : Term := Term.int v

/-- Modelled from the spec: the family `erlang::nif::make_*_list_from_c_array`
of `nif_utils.hpp` (`encode_sequence` in the spec): "produces an ordered host
sequence by applying `elementEncoder` to each of `length` contiguous
elements; if `length == 0` or the source pointer is null, returns an empty
sequence (never an error)"; it fails, with a non-zero status, when the
intermediate buffer cannot be allocated.  `data` is the pointer argument seen
at its element type: `none` for null, otherwise the elements that lie inside
the object pointed to.  The result is the status and the value of `out`. -/
def make_list_from_c_array {α : Type} (enc : α → Term) (alloc_ok : Bool) (count : Nat)
    (data : Option (List α)) (out : Option Term) : Except Fault (Nat × Option Term) :=
  match data with
  | none => .ok (0, some (Term.list []))
  | some xs =>
    if count = 0 then .ok (0, some (Term.list []))
    else if !alloc_ok then .ok (1, out)
    else if count ≤ xs.length then .ok (0, some (Term.list ((xs.take count).map enc)))
    else .error Fault.outOfBounds

/-- Instance `make_i64_list_from_c_array`: each element becomes a host
integer through `int64_t`. -/
def make_i64_list_from_c_array (alloc_ok : Bool) (count : Nat) (data : Option (List Int))
    (out : Option Term) : Except Fault (Nat × Option Term) :=
  make_list_from_c_array Term.int alloc_ok count data out

/-- Instance `make_i32_list_from_c_array`. -/
def make_i32_list_from_c_array (alloc_ok : Bool) (count : Nat) (data : Option (List Int))
    (out : Option Term) : Except Fault (Nat × Option Term) :=
  make_list_from_c_array Term.int alloc_ok count data out

/-- Instance `make_f64_list_from_c_array`: each float is widened to a
double. -/
def make_f64_list_from_c_array (alloc_ok : Bool) (count : Nat) (data : Option (List Nat))
    (out : Option Term) : Except Fault (Nat × Option Term) :=
  make_list_from_c_array Term.double alloc_ok count data out

end erlang.nif

/-! ## Host runtime and C library calls -/

/-- The name of the resource type `erlang_nif_res<TfLiteTensor *>::type`. -/
def tensor_resource_type : String := "TfLiteTensor"

/-- The call `enif_get_resource(env, term, erlang_nif_res<TfLiteTensor *>::type, &res)`:
succeeds on a resource handle of that type and yields the `val` field of the
resource object. -/
def enif_get_resource (t : Term) : Option (Option Nat) :=
  match t with
  | Term.resource rtype val => if rtype = tensor_resource_type then some val else none
  | _ => none

/-- The call `enif_inspect_binary`: succeeds on a binary term and yields its
bytes. -/
def enif_inspect_binary (t : Term) : Option (List UInt8) :=
  match t with
  | Term.binary bs => some bs
  | _ => none

/-- Reading `n` bytes with `memcpy` from a source pointer into a fresh
destination of `n` bytes.  Nothing is read when `n = 0`. -/
def memcpy_from (src : Option (List UInt8)) (n : Nat) : Except Fault (List UInt8) :=
  if n = 0 then .ok []
  else match src with
    | none => .error Fault.nullDeref
    | some buf => if n ≤ buf.length then .ok (buf.take n) else .error Fault.outOfBounds

/-- Writing the bytes `src` with `memcpy(dst, src, src.size)` over the start
of the non-null destination buffer `dst`. -/
def memcpy_into (dst : List UInt8) (src : List UInt8) : Except Fault (List UInt8) :=
  if src.length ≤ dst.length then .ok (src ++ dst.drop src.length)
  else .error Fault.outOfBounds

/-- Dereferencing a tensor pointer held by a resource. -/
def deref (heap : Heap) (p : Nat) : Except Fault TfLiteTensor :=
  match heap p with
  | some t => .ok t
  | none => .error Fault.danglingPointer

/-! ## Term constructors of the host runtime -/

/-- The call `enif_make_uint64`: the host integer of an unsigned 64-bit value. -/
def enif_make_uint64 (v : Nat) : Term := Term.int (v : Int)

/-- The call `enif_make_int`. -/
def enif_make_int (v : Int) : Term := Term.int v

/-- The call `enif_make_list_from_array`. -/
def enif_make_list_from_array (arr : List Term) : Term := Term.list arr

/-- The call `enif_make_new_map`. -/
def enif_make_new_map : Term := Term.map []

/-- The call `enif_make_map_from_arrays` on keys that are pairwise distinct. -/
def enif_make_map_from_arrays (keys vals : List Term) : Term := Term.map (keys.zip vals)

/-- Reading an `ERL_NIF_TERM` variable: defined only once it was assigned. -/
def read_term (v : Option Term) : Except Fault Term :=
  match v with
  | some t => .ok t
  | none => .error Fault.uninitialised

/-- Conversion of a C `int` to `size_t` (64 bits). -/
def size_t_of_int (d : Int) : Nat := (d % 2 ^ 64).toNat

/-! ## Accessors of the TensorFlow Lite C API -/

/-- The C API call `TfLiteTensorNumDims`: `tensor->dims->size`. -/
def TfLiteTensorNumDims (tensor : TfLiteTensor) : Nat := tensor.dims.size

/-- The C API call `TfLiteTensorDim`: `tensor->dims->data[dim_index]`. -/
def TfLiteTensorDim (tensor : TfLiteTensor) (dim_index : Nat) : Int :=
  tensor.dims.data.getD dim_index 0

/-- The C API call `TfLiteTensorType`. -/
def TfLiteTensorType (tensor : TfLiteTensor) : Nat := tensor.type

/-! ## Reading a `TfLiteIntArray` object through an `int64_t *` -/

/-- The object representation of a `TfLiteIntArray` as 32-bit words: the
`size` field, then the elements. -/
def TfLiteIntArray.words (a : TfLiteIntArray) : List Nat :=
  (((a.size : Int) :: a.data).map fun w => (w % 2 ^ 32).toNat)

/-- Two adjacent 32-bit words read as one `int64_t`. -/
def int64_of_words (little_endian : Bool) (w0 w1 : Nat) : Int :=
  let u : Nat := if little_endian then w0 + w1 * 2 ^ 32 else w1 + w0 * 2 ^ 32
  if u < 2 ^ 63 then (u : Int) else (u : Int) - 2 ^ 64

/-- The `int64_t` elements that lie inside an object made of the given 32-bit
words. -/
def as_int64_array (little_endian : Bool) : List Nat → List Int
  | w0 :: w1 :: rest => int64_of_words little_endian w0 w1 :: as_int64_array little_endian rest
  | _ => []

/-! ## The helpers -/

/-- Helper `_tflitetensor_shape`. -/
def _tflitetensor_shape (env : Env) (tensor : TfLiteTensor) (out : Option Term) :
    Except Fault (Nat × Option Term) :=
  let num_dims := TfLiteTensorNumDims tensor
  if !env.alloc_shape then .ok (1, out)
  else
    let dims := (List.range num_dims).map fun i =>
      enif_make_uint64 (size_t_of_int (TfLiteTensorDim tensor i))
    .ok (0, some (enif_make_list_from_array dims))

/-- Helper `_tflitetensor_shape_signature`.  The list helper is handed the
address of the `TfLiteIntArray` object itself, cast to `int64_t *`. -/
def _tflitetensor_shape_signature (env : Env) (tensor : TfLiteTensor) (out : Option Term) :
    Except Fault (Nat × Option Term) :=
  match tensor.dims_signature with
  | some dims_signature =>
    if dims_signature.size ≠ 0 then
      match erlang.nif.make_i64_list_from_c_array env.alloc_shape_signature dims_signature.size
          (some (as_int64_array env.little_endian dims_signature.words)) none with
      | .error f => .error f
      | .ok (status, shape_signature) =>
        if status ≠ 0 then .ok (1, out) else .ok (0, shape_signature)
    else _tflitetensor_shape env tensor out
  | none => _tflitetensor_shape env tensor out

/-- Helper `_tflitetensor_type`. -/
def _tflitetensor_type (env : Env) (tensor : TfLiteTensor) (out : Option Term) :
    Except Fault (Nat × Option Term) :=
  match env.tensor_type_to_erl_term (TfLiteTensorType tensor) with
  | some tensor_type => .ok (0, some tensor_type)
  | none => .ok (1, out)

/-- The locals `scales_data, scales_size, zero_points_data, zero_points_size,
quantized_dimension` of `_tflitetensor_quantization_params` after the `if`. -/
def quantization_locals (quantization : TfLiteQuantization) :
    Except Fault (Option (List Nat) × Nat × Option (List Int) × Nat × Int) :=
  if quantization.type = TfLiteQuantizationType.kTfLiteAffineQuantization then
    match quantization.params with
    | none => .error Fault.nullDeref
    | some q_params =>
      let scales : Option (List Nat) × Nat :=
        match q_params.scale with
        | some scale => (some scale.data, scale.size)
        | none => (none, 0)
      let zero_points : Option (List Int) × Nat :=
        match q_params.zero_point with
        | some zero_point => (some zero_point.data, zero_point.size)
        | none => (none, 0)
      .ok (scales.1, scales.2, zero_points.1, zero_points.2, q_params.quantized_dimension)
  else .ok (none, 0, none, 0, 0)

/-- Helper `_tflitetensor_quantization_params`. -/
def _tflitetensor_quantization_params (env : Env) (tensor : TfLiteTensor) (out : Option Term) :
    Except Fault (Nat × Option Term) :=
  match quantization_locals tensor.quantization with
  | .error f => .error f
  | .ok (scales_data, scales_size, zero_points_data, zero_points_size, quantized_dimension) =>
    match erlang.nif.make_f64_list_from_c_array env.alloc_scale scales_size scales_data none with
    | .error f => .error f
    | .ok (status, scale) =>
      if status ≠ 0 then .ok (1, out)
      else
        match erlang.nif.make_i32_list_from_c_array env.alloc_zero_point zero_points_size
            zero_points_data none with
        | .error f => .error f
        | .ok (status, zero_point) =>
          if status ≠ 0 then .ok (1, out)
          else
            match read_term scale, read_term zero_point with
            | .ok scale, .ok zero_point =>
              .ok (0, some (Term.tuple [scale, zero_point, enif_make_int quantized_dimension]))
            | .error f, _ => .error f
            | _, .error f => .error f

/-- Body of the loop of `_tflitetensor_sparsity_params` for dimension `i`:
the entry `dim_metadata_i`, or `none` where the source returns 1. -/
def dim_metadata_entry (env : Env) (i : Nat) (d : TfLiteDimensionMetadata) :
    Except Fault (Option Term) :=
  if d.format = TfLiteDimensionType.kTfLiteDimDense then
    .ok (some (enif_make_map_from_arrays
      [erlang.nif.atom "format", erlang.nif.atom "dense_size"]
      [erlang.nif.make 0, erlang.nif.make d.dense_size]))
  else
    match d.array_segments with
    | none => .error Fault.nullDeref
    | some array_segments =>
      match erlang.nif.make_i64_list_from_c_array (env.alloc_array_segments i)
          array_segments.size (some array_segments.data) none with
      | .error f => .error f
      | .ok (status, segments) =>
        if status ≠ 0 then .ok none
        else
          match d.array_indices with
          | none => .error Fault.nullDeref
          | some array_indices =>
            match erlang.nif.make_i64_list_from_c_array (env.alloc_array_indices i)
                array_indices.size (some array_indices.data) none with
            | .error f => .error f
            | .ok (status, indices) =>
              if status ≠ 0 then .ok none
              else
                match read_term segments, read_term indices with
                | .ok segments, .ok indices =>
                  .ok (some (enif_make_map_from_arrays
                    [erlang.nif.atom "format", erlang.nif.atom "array_segments",
                      erlang.nif.atom "array_indices"]
                    [erlang.nif.make 1, segments, indices]))
                | .error f, _ => .error f
                | _, .error f => .error f

/-- The loop `for (int i = 0; i < param->dim_metadata_size; i++)` from index
`i` with `remaining` iterations to go: the entries stored from `i` on, or
`none` where the source returns 1. -/
def dim_metadata_loop (env : Env) (dim_metadata : Option (List TfLiteDimensionMetadata)) :
    (remaining : Nat) → (i : Nat) → Except Fault (Option (List Term))
  | 0, _ => .ok (some [])
  | remaining + 1, i =>
    match dim_metadata with
    | none => .error Fault.nullDeref
    | some ds =>
      match ds[i]? with
      | none => .error Fault.outOfBounds
      | some d =>
        match dim_metadata_entry env i d with
        | .error f => .error f
        | .ok none => .ok none
        | .ok (some dim_metadata_i) =>
          match dim_metadata_loop env dim_metadata remaining (i + 1) with
          | .error f => .error f
          | .ok none => .ok none
          | .ok (some rest) => .ok (some (dim_metadata_i :: rest))

/-- Helper `_tflitetensor_sparsity_params`. -/
def _tflitetensor_sparsity_params (env : Env) (tensor : TfLiteTensor) (out : Option Term) :
    Except Fault (Nat × Option Term) :=
  match tensor.sparsity with
  | none => .ok (0, some enif_make_new_map)
  | some param =>
    match param.traversal_order with
    | none => .error Fault.nullDeref
    | some traversal_order =>
      match erlang.nif.make_i64_list_from_c_array env.alloc_traversal_order
          traversal_order.size (some traversal_order.data) none with
      | .error f => .error f
      | .ok (status, val0) =>
        if status ≠ 0 then .ok (1, out)
        else
          match param.block_map with
          | none => .error Fault.nullDeref
          | some block_map =>
            match erlang.nif.make_i64_list_from_c_array env.alloc_block_map
                block_map.size (some block_map.data) none with
            | .error f => .error f
            | .ok (status, val1) =>
              if status ≠ 0 then .ok (1, out)
              else if !env.alloc_dim_metadata then .ok (1, out)
              else
                match dim_metadata_loop env param.dim_metadata param.dim_metadata_size 0 with
                | .error f => .error f
                | .ok none => .ok (1, out)
                | .ok (some dim_metadata) =>
                  match read_term val0, read_term val1 with
                  | .ok val0, .ok val1 =>
                    .ok (0, some (enif_make_map_from_arrays
                      [erlang.nif.atom "traversal_order", erlang.nif.atom "block_map",
                        erlang.nif.atom "dim_metadata"]
                      [val0, val1, enif_make_list_from_array dim_metadata]))
                  | .error f, _ => .error f
                  | _, .error f => .error f

/-! ## The NIF entry points -/

/-- NIF `tflitetensor_type`. -/
def tflitetensor_type (env : Env) (heap : Heap) (argv : List Term) : Except Fault Term :=
  match argv with
  | [self_nif] =>
    match enif_get_resource self_nif with
    | some (some p) =>
      match deref heap p with
      | .error f => .error f
      | .ok tensor =>
        match _tflitetensor_type env tensor (some (erlang.nif.error "invalid tensor")) with
        | .error f => .error f
        | .ok (_, ret) => read_term ret
    | some none => .ok (erlang.nif.error "oh nyo erlang")
    | none => .ok (erlang.nif.error "cannot access resource")
  | _ => .ok Term.badarg

/-- NIF `tflitetensor_dims`. -/
def tflitetensor_dims (env : Env) (heap : Heap) (argv : List Term) : Except Fault Term :=
  match argv with
  | [self_nif] =>
    match enif_get_resource self_nif with
    | some (some p) =>
      match deref heap p with
      | .error f => .error f
      | .ok tensor =>
        match _tflitetensor_shape env tensor none with
        | .error f => .error f
        | .ok (status, tensor_shape) =>
          if status ≠ 0 then
            .ok (erlang.nif.error "cannot allocate memory for storing tensor shape")
          else
            match read_term tensor_shape with
            | .error f => .error f
            | .ok tensor_shape => .ok (erlang.nif.ok tensor_shape)
    | some none => .ok (erlang.nif.error "oh nyo erlang")
    | none => .ok (erlang.nif.error "cannot access resource")
  | _ => .ok Term.badarg

/-- NIF `tflitetensor_quantization_params`. -/
def tflitetensor_quantization_params (env : Env) (heap : Heap) (argv : List Term) :
    Except Fault Term :=
  match argv with
  | [self_nif] =>
    match enif_get_resource self_nif with
    | some (some p) =>
      match deref heap p with
      | .error f => .error f
      | .ok tensor =>
        match _tflitetensor_quantization_params env tensor none with
        | .error f => .error f
        | .ok (status, tensor_quantization_params) =>
          if status ≠ 0 then
            .ok (erlang.nif.error
              "cannot allocate memory for storing tensor quantization params")
          else
            match read_term tensor_quantization_params with
            | .error f => .error f
            | .ok tensor_quantization_params => .ok (erlang.nif.ok tensor_quantization_params)
    | some none => .ok (erlang.nif.error "oh nyo erlang")
    | none => .ok (erlang.nif.error "cannot access resource")
  | _ => .ok Term.badarg

/-! ## `tflitetensor_to_binary` and `tflitetensor_set_data` -/

/-- NIF `tflitetensor_to_binary`. -/
def tflitetensor_to_binary (env : Env) (heap : Heap) (argv : List Term) : Except Fault Term :=
  match argv with
  | [self_nif] =>
    match enif_get_resource self_nif with
    | some (some p) =>
      match deref heap p with
      | .error f => .error f
      | .ok tensor =>
        let tensor_size := tensor.bytes
        if !env.alloc_binary then
          .ok (erlang.nif.error "cannot allocate enough memory for the tensor")
        else
          match memcpy_from tensor.data tensor_size with
          | .error f => .error f
          | .ok tensor_data => .ok (erlang.nif.ok (Term.binary tensor_data))
    | some none => .ok (erlang.nif.error "oh nyo erlang")
    | none => .ok (erlang.nif.error "cannot access resource")
  | _ => .ok Term.badarg

/-- NIF `tflitetensor_set_data`; returns the result term and the native memory
after the call. -/
def tflitetensor_set_data (_env : Env) (heap : Heap) (argv : List Term) :
    Except Fault (Term × Heap) :=
  match argv with
  | [self_nif, data_nif] =>
    match enif_get_resource self_nif with
    | some (some p) =>
      match enif_inspect_binary data_nif with
      | some data =>
        match deref heap p with
        | .error f => .error f
        | .ok tensor =>
          match tensor.data with
          | none =>
            .ok (erlang.nif.error
              "tensor is not allocated yet? Please call TFLite.Interpreter.allocateTensors first",
              heap)
          | some buf =>
            match memcpy_into buf data with
            | .error f => .error f
            | .ok buf' => .ok (erlang.nif.ok0, heap.write p { tensor with data := some buf' })
      | none => .ok (erlang.nif.error "cannot get input data", heap)
    | some none => .ok (erlang.nif.error "oh nyo erlang", heap)
    | none => .ok (erlang.nif.error "cannot access resource", heap)
  | _ => .ok (Term.badarg, heap)

/-! ## Reason vocabulary -/

/-- The reason vocabulary as the specification lists it: `invalid tensor`,
`cannot access resource`, `cannot allocate memory…`, `tensor is not allocated
yet…`, `cannot get input data`, `invalid handle`.  An entry that ends in an
ellipsis stands for every reason starting with the words before it. -/
def spec_vocabulary (r : String) : Bool :=
  r == "invalid tensor" || r == "cannot access resource" ||
  "cannot allocate memory".data.isPrefixOf r.data ||
  "tensor is not allocated yet".data.isPrefixOf r.data ||
  r == "cannot get input data" || r == "invalid handle"

/-! ## Predicates used in the statements -/

/-- A call of a list helper failed: it returned a non-zero status. -/
def construction_fails (r : Except Fault (Nat × Option Term)) : Prop :=
  ∃ status o, r = .ok (status, o) ∧ status ≠ 0

/-- An entry of the `dim_metadata` list agrees with the native dimension it
was made from: a dense dimension gives the map with the dense tag `0` and
`dense_size` and nothing else; a sparse dimension gives the map with the
sparse tag `1` and the two lists `array_segments` and `array_indices` and
nothing else. -/
def entry_consistent (d : TfLiteDimensionMetadata) (e : Term) : Prop :=
  match d.format with
  | TfLiteDimensionType.kTfLiteDimDense =>
    e = Term.map [(Term.atom "format", Term.int 0), (Term.atom "dense_size", Term.int d.dense_size)]
  | TfLiteDimensionType.kTfLiteDimSparseCSR =>
    ∃ segments indices, d.array_segments = some segments ∧ d.array_indices = some indices ∧
      e = Term.map [(Term.atom "format", Term.int 1),
        (Term.atom "array_segments", Term.list (segments.data.map Term.int)),
        (Term.atom "array_indices", Term.list (indices.data.map Term.int))]

/-- A sparse dimension has both of its index arrays. -/
def dimension_pointers_set (d : TfLiteDimensionMetadata) : Prop :=
  d.format = TfLiteDimensionType.kTfLiteDimDense ∨
    (d.array_segments ≠ none ∧ d.array_indices ≠ none)

/-- No pointer of the sparsity struct that the helper follows is null, and
`dim_metadata` holds at least `dim_metadata_size` entries. -/
def sparsity_pointers_set (param : TfLiteSparsity) : Prop :=
  param.traversal_order ≠ none ∧ param.block_map ≠ none ∧
  ∀ i, i < param.dim_metadata_size →
    ∃ d, param.dim_metadata.bind (fun ds => ds[i]?) = some d ∧ dimension_pointers_set d

/-- Every allocation site of `_tflitetensor_sparsity_params` succeeds. -/
def sparsity_allocations_succeed (env : Env) : Prop :=
  env.alloc_traversal_order = true ∧ env.alloc_block_map = true ∧
  env.alloc_dim_metadata = true ∧
  ∀ i, env.alloc_array_segments i = true ∧ env.alloc_array_indices i = true

/-! ## Sample inputs -/

/-- An environment in which every allocation succeeds (little-endian). -/
def env_ok : Env :=
  { alloc_shape := true, alloc_shape_signature := true, alloc_scale := true,
    alloc_zero_point := true, alloc_traversal_order := true, alloc_block_map := true,
    alloc_dim_metadata := true, alloc_array_segments := fun _ => true,
    alloc_array_indices := fun _ => true, alloc_binary := true, little_endian := true,
    tensor_type_to_erl_term := fun ty => if ty = 1 then some (Term.atom "f32") else none }

/-- The same environment on a big-endian machine. -/
def env_big_endian : Env := { env_ok with little_endian := false }

/-- An environment in which every allocation fails. -/
def env_no_memory : Env :=
  { env_ok with
    alloc_shape := false, alloc_shape_signature := false, alloc_scale := false,
    alloc_zero_point := false, alloc_traversal_order := false, alloc_block_map := false,
    alloc_dim_metadata := false, alloc_array_segments := fun _ => false,
    alloc_array_indices := fun _ => false, alloc_binary := false }

/-- A 1x4 byte tensor before `allocateTensors`: no data buffer yet. -/
def tensor_unallocated : TfLiteTensor :=
  { type := 3, data := none, dims := ⟨[1, 4]⟩, bytes := 4,
    quantization := ⟨TfLiteQuantizationType.kTfLiteNoQuantization, none⟩,
    sparsity := none, dims_signature := none }

/-- The same tensor once allocated, zero-filled. -/
def tensor_allocated : TfLiteTensor := { tensor_unallocated with data := some [0, 0, 0, 0] }

/-- A tensor whose only dimension is dynamic: signature `[-1]`. -/
def tensor_dynamic : TfLiteTensor :=
  { tensor_allocated with dims := ⟨[1]⟩, dims_signature := some ⟨[-1]⟩ }

/-- A tensor with signature `[-1, 4]`. -/
def tensor_dynamic2 : TfLiteTensor :=
  { tensor_allocated with dims_signature := some ⟨[-1, 4]⟩ }

/-- A tensor without signature whose fixed dimensions are `-1` and `4`. -/
def tensor_negative_dim : TfLiteTensor := { tensor_allocated with dims := ⟨[-1, 4]⟩ }

/-- A tensor marked affine-quantized whose `params` pointer is null. -/
def tensor_affine_null : TfLiteTensor :=
  { tensor_allocated with
    quantization := ⟨TfLiteQuantizationType.kTfLiteAffineQuantization, none⟩ }

/-- A tensor with a sparsity struct whose array pointers are null. -/
def tensor_sparse_null : TfLiteTensor :=
  { tensor_allocated with sparsity := some ⟨none, none, none, 0⟩ }

/-- A sparsity struct with one dense and one sparse dimension. -/
def sparsity_sample : TfLiteSparsity :=
  { traversal_order := some ⟨[0, 1]⟩, block_map := some ⟨[]⟩,
    dim_metadata := some
      [⟨TfLiteDimensionType.kTfLiteDimDense, 4, none, none⟩,
       ⟨TfLiteDimensionType.kTfLiteDimSparseCSR, 0, some ⟨[0, 2]⟩, some ⟨[1, 3]⟩⟩],
    dim_metadata_size := 2 }

/-- A tensor carrying `sparsity_sample`. -/
def tensor_sparse : TfLiteTensor := { tensor_allocated with sparsity := some sparsity_sample }

/-- A per-tensor affine quantization: one scale, one zero point. -/
def tensor_affine : TfLiteTensor :=
  { tensor_allocated with
    quantization := ⟨TfLiteQuantizationType.kTfLiteAffineQuantization,
      some ⟨some ⟨[1056964608]⟩, some ⟨[128]⟩, 0⟩⟩ }

/-- A native heap holding one tensor, at address 16. -/
def heap_with (t : TfLiteTensor) : Heap := fun q => if q = 16 then some t else none

/-- A handle to the tensor at address 16. -/
def handle16 : Term := Term.resource tensor_resource_type (some 16)

/-- A tensor resource whose native pointer is null. -/
def handle_null : Term := Term.resource tensor_resource_type none

/-! ## Basic facts -/

/-- Reading back the address just written. -/
theorem heap_write_same (h : Heap) (p : Nat) (t : TfLiteTensor) : (h.write p t) p = some t := by
  simp [Heap.write]

/-- A copy that fits replaces the start of the destination. -/
theorem memcpy_into_fits (dst src : List UInt8) (h : src.length ≤ dst.length) :
    memcpy_into dst src = .ok (src ++ dst.drop src.length) := by
  simp [memcpy_into, h]

/-- Reading as many bytes as a prefix has yields that prefix. -/
theorem memcpy_from_prefix (b rest : List UInt8) :
    memcpy_from (some (b ++ rest)) b.length = .ok b := by
  unfold memcpy_from
  by_cases h0 : b.length = 0
  · have : b = [] := List.length_eq_zero.mp h0
    simp [this]
  · simp [h0]

/-! ## Writing and reading tensor bytes -/

/-- C2: on a live handle whose tensor has a null data pointer, and with a
readable binary, `tflitetensor_set_data` returns the error with the reason
"tensor is not allocated yet? ...", and the native memory after the call is
the native memory before it (nothing is copied, the tensor is unchanged). -/
theorem set_data_unallocated (env : Env) (heap : Heap) (self_nif data_nif : Term) (p : Nat)
    (tensor : TfLiteTensor) (b : List UInt8)
    (hres : enif_get_resource self_nif = some (some p)) (hlive : heap p = some tensor)
    (hnull : tensor.data = none) (hbin : enif_inspect_binary data_nif = some b) :
    tflitetensor_set_data env heap [self_nif, data_nif] =
      .ok (erlang.nif.error
        "tensor is not allocated yet? Please call TFLite.Interpreter.allocateTensors first",
        heap) := by
  simp [tflitetensor_set_data, hres, deref, hlive, hbin, hnull]

/-- Instance of `set_data_unallocated`: writing four bytes to the unallocated
sample tensor. -/
theorem set_data_unallocated_witness :
    tflitetensor_set_data env_ok (heap_with tensor_unallocated) [handle16, Term.binary [1, 2, 3, 4]] =
      .ok (erlang.nif.error
        "tensor is not allocated yet? Please call TFLite.Interpreter.allocateTensors first",
        heap_with tensor_unallocated) :=
  set_data_unallocated env_ok (heap_with tensor_unallocated) handle16 (Term.binary [1, 2, 3, 4]) 16
    tensor_unallocated [1, 2, 3, 4] rfl rfl rfl rfl

/-- C1, as stated, fails: with a live handle to an allocated 4-byte tensor and
the 4-byte binary `<<1,2,3,4>>`, `tflitetensor_set_data` returns ok, and when
`enif_alloc_binary` then fails the following `tflitetensor_to_binary` returns
the allocation error, not `ok(<<1,2,3,4>>)`. -/
theorem roundtrip_alloc_failure :
    tflitetensor_set_data env_no_memory (heap_with tensor_allocated)
        [handle16, Term.binary [1, 2, 3, 4]] =
      .ok (erlang.nif.ok0,
        (heap_with tensor_allocated).write 16 { tensor_allocated with data := some [1, 2, 3, 4] }) ∧
    tflitetensor_to_binary env_no_memory
        ((heap_with tensor_allocated).write 16 { tensor_allocated with data := some [1, 2, 3, 4] })
        [handle16] =
      .ok (erlang.nif.error "cannot allocate enough memory for the tensor") ∧
    tflitetensor_to_binary env_no_memory
        ((heap_with tensor_allocated).write 16 { tensor_allocated with data := some [1, 2, 3, 4] })
        [handle16] ≠
      .ok (erlang.nif.ok (Term.binary [1, 2, 3, 4])) := by
  refine ⟨rfl, rfl, ?_⟩
  have h : tflitetensor_to_binary env_no_memory
        ((heap_with tensor_allocated).write 16 { tensor_allocated with data := some [1, 2, 3, 4] })
        [handle16] =
      .ok (erlang.nif.error "cannot allocate enough memory for the tensor") := rfl
  rw [h]
  simp [erlang.nif.error, erlang.nif.ok]

/-- C1, amended: on a live handle whose tensor has an allocated data buffer of
the declared byte length `n`, and for a binary `b` of length exactly `n`,
`tflitetensor_set_data` returns ok, and a following `tflitetensor_to_binary`
on the same handle returns `ok(b)` whenever `enif_alloc_binary` succeeds, and
the error "cannot allocate enough memory for the tensor" when it fails. -/
theorem set_data_to_binary_roundtrip (env : Env) (heap : Heap) (self_nif data_nif : Term)
    (p : Nat) (tensor : TfLiteTensor) (buf b : List UInt8)
    (hres : enif_get_resource self_nif = some (some p)) (hlive : heap p = some tensor)
    (halloc : tensor.data = some buf) (hlen : buf.length = tensor.bytes)
    (hbin : enif_inspect_binary data_nif = some b) (hb : b.length = tensor.bytes) :
    ∃ heap' : Heap,
      tflitetensor_set_data env heap [self_nif, data_nif] = .ok (erlang.nif.ok0, heap') ∧
      tflitetensor_to_binary env heap' [self_nif] =
        .ok (if env.alloc_binary then erlang.nif.ok (Term.binary b)
             else erlang.nif.error "cannot allocate enough memory for the tensor") := by
  have hfit : b.length ≤ buf.length := by omega
  refine ⟨heap.write p { tensor with data := some (b ++ buf.drop b.length) }, ?_, ?_⟩
  · simp [tflitetensor_set_data, hres, deref, hlive, hbin, halloc, memcpy_into_fits _ _ hfit]
  · have hread : memcpy_from (some (b ++ buf.drop b.length)) tensor.bytes = .ok b := by
      rw [← hb]; exact memcpy_from_prefix b _
    cases hab : env.alloc_binary <;>
      simp [tflitetensor_to_binary, hres, deref, heap_write_same, hab, hread]

/-- Instance of `set_data_to_binary_roundtrip`: four bytes written to and read
back from the allocated sample tensor. -/
theorem set_data_to_binary_roundtrip_witness :
    ∃ heap' : Heap,
      tflitetensor_set_data env_ok (heap_with tensor_allocated)
          [handle16, Term.binary [1, 2, 3, 4]] = .ok (erlang.nif.ok0, heap') ∧
      tflitetensor_to_binary env_ok heap' [handle16] =
        .ok (if env_ok.alloc_binary then erlang.nif.ok (Term.binary [1, 2, 3, 4])
             else erlang.nif.error "cannot allocate enough memory for the tensor") :=
  set_data_to_binary_roundtrip env_ok (heap_with tensor_allocated) handle16
    (Term.binary [1, 2, 3, 4]) 16 tensor_allocated [0, 0, 0, 0] [1, 2, 3, 4] rfl rfl rfl rfl rfl rfl

/-- Auxiliary to C10: when the binary is no longer than the data buffer,
`tflitetensor_set_data` returns ok and the tensor afterwards differs only in
its buffer, which is the binary followed by the old bytes beyond it. -/
theorem set_data_within_buffer (env : Env) (heap : Heap) (self_nif data_nif : Term)
    (p : Nat) (tensor : TfLiteTensor) (buf b : List UInt8)
    (hres : enif_get_resource self_nif = some (some p)) (hlive : heap p = some tensor)
    (halloc : tensor.data = some buf) (hbin : enif_inspect_binary data_nif = some b)
    (hfit : b.length ≤ buf.length) :
    tflitetensor_set_data env heap [self_nif, data_nif] =
      .ok (erlang.nif.ok0, heap.write p { tensor with data := some (b ++ buf.drop b.length) }) := by
  simp [tflitetensor_set_data, hres, deref, hlive, hbin, halloc, memcpy_into_fits _ _ hfit]

/-- C10: evaluation at the failing input.  On a live handle to an allocated
tensor of 4 bytes, `tflitetensor_set_data` with a binary of 5 bytes copies all
5 bytes: the write runs past the end of the tensor's buffer. -/
theorem set_data_writes_past_buffer :
    tflitetensor_set_data env_ok (heap_with tensor_allocated)
        [handle16, Term.binary [1, 2, 3, 4, 5]] = .error Fault.outOfBounds := rfl

/-- C7: evaluation at the failing inputs.  `tflitetensor_to_binary` on a live
handle to an unallocated tensor (null data pointer, 4 bytes declared) copies
from the null pointer; `_tflitetensor_quantization_params` on an affine
quantization with a null `params` pointer reads through it; and
`_tflitetensor_sparsity_params` on a sparsity struct with a null
`traversal_order` reads through it. -/
theorem null_pointer_used :
    tflitetensor_to_binary env_ok (heap_with tensor_unallocated) [handle16] =
      .error Fault.nullDeref ∧
    _tflitetensor_quantization_params env_ok tensor_affine_null none = .error Fault.nullDeref ∧
    _tflitetensor_sparsity_params env_ok tensor_sparse_null none = .error Fault.nullDeref :=
  ⟨rfl, rfl, rfl⟩

/-! ## Shapes -/

/-- The indexed loop over a list visits its elements in order. -/
theorem range_map_getD (l : List Int) (f : Int → Term) :
    ((List.range l.length).map fun i => f (l.getD i 0)) = l.map f := by
  apply List.ext_getElem
  · simp
  · intro i h1 h2
    simp at h1
    simp [List.getD, List.getElem?_eq_getElem h1]

/-- The result of `_tflitetensor_shape` in closed form. -/
theorem shape_value (env : Env) (tensor : TfLiteTensor) (out : Option Term) :
    _tflitetensor_shape env tensor out =
      .ok (if env.alloc_shape then
            (0, some (Term.list
              (tensor.dims.data.map fun d => Term.int ((size_t_of_int d : Nat) : Int))))
           else (1, out)) := by
  have hl := range_map_getD tensor.dims.data (fun d => Term.int ((size_t_of_int d : Nat) : Int))
  cases h : env.alloc_shape
  · simp [_tflitetensor_shape, h]
  · simp only [_tflitetensor_shape, h, TfLiteTensorNumDims, TfLiteTensorDim, TfLiteIntArray.size,
      enif_make_uint64, enif_make_list_from_array, hl]
    simp

/-- The conversion to `size_t` is reduction modulo `2 ^ 64`. -/
theorem size_t_of_int_cast (d : Int) : ((size_t_of_int d : Nat) : Int) = d % 2 ^ 64 := by
  unfold size_t_of_int
  exact Int.toNat_of_nonneg (Int.emod_nonneg _ (by norm_num))

/-- The conversion to `size_t` keeps a non-negative C `int`. -/
theorem size_t_of_int_nonneg (d : Int) (h : 0 ≤ d) (h2 : d < 2 ^ 31) :
    ((size_t_of_int d : Nat) : Int) = d := by
  rw [size_t_of_int_cast]
  exact Int.emod_eq_of_lt h (by omega)

/-- C3: evaluation at the failing input.  For the signature `[-1]` (size 1)
the helper succeeds with a one-element list whose element is not `-1`: it is
the 64-bit value made of the `size` field and `data[0]`, `-4294967295` on a
little-endian machine and `8589934591` on a big-endian one.  For the
signature `[-1, 4]` (size 2) the read leaves the object. -/
theorem shape_signature_reads_struct :
    _tflitetensor_shape_signature env_ok tensor_dynamic none =
      .ok (0, some (Term.list [Term.int (-4294967295)])) ∧
    _tflitetensor_shape_signature env_big_endian tensor_dynamic none =
      .ok (0, some (Term.list [Term.int 8589934591])) ∧
    _tflitetensor_shape_signature env_ok tensor_dynamic2 none = .error Fault.outOfBounds :=
  ⟨rfl, rfl, rfl⟩

/-- C4, as stated, fails: the tensor has no signature and the fixed
dimensions `-1` and `4`.  When `enif_alloc` succeeds the helper returns the
list `[18446744073709551615, 4]`, whose first element is not the first
dimension `-1`; when `enif_alloc` fails it returns status 1 and no list at
all. -/
theorem shape_negative_dimension :
    tensor_negative_dim.dims_signature = none ∧
    TfLiteTensorDim tensor_negative_dim 0 = -1 ∧
    _tflitetensor_shape_signature env_ok tensor_negative_dim none =
      .ok (0, some (Term.list [Term.int 18446744073709551615, Term.int 4])) ∧
    Term.int 18446744073709551615 ≠ Term.int (TfLiteTensorDim tensor_negative_dim 0) ∧
    _tflitetensor_shape_signature env_no_memory tensor_negative_dim none = .ok (1, none) := by
  refine ⟨rfl, rfl, rfl, ?_, rfl⟩
  have h : TfLiteTensorDim tensor_negative_dim 0 = -1 := rfl
  rw [h]
  simp

/-- C4, amended: for a tensor whose `dims_signature` is null or has size 0,
`_tflitetensor_shape_signature` returns exactly what `_tflitetensor_shape`
returns.  When the `enif_alloc` of `_tflitetensor_shape` succeeds that is
status 0 with the fixed shape, a list whose length is the tensor's number of
dimensions and whose `i`-th element is the non-negative integer obtained by
converting the `i`-th dimension to `size_t`, that is the dimension modulo
`2 ^ 64`, which is the dimension itself whenever the dimension is a
non-negative C `int`.  When the `enif_alloc` fails it is status 1 with `out`
left as it was. -/
theorem shape_signature_fallback (env : Env) (tensor : TfLiteTensor) (out : Option Term)
    (hsig : tensor.dims_signature = none ∨
      ∃ s, tensor.dims_signature = some s ∧ s.size = 0) :
    _tflitetensor_shape_signature env tensor out = _tflitetensor_shape env tensor out ∧
    ∃ shape : List Term,
      _tflitetensor_shape env tensor out =
        .ok (if env.alloc_shape then (0, some (Term.list shape)) else (1, out)) ∧
      shape.length = TfLiteTensorNumDims tensor ∧
      ∀ i, i < TfLiteTensorNumDims tensor →
        ∃ v : Nat, shape[i]? = some (Term.int (v : Int)) ∧
          (v : Int) = TfLiteTensorDim tensor i % 2 ^ 64 ∧
          (0 ≤ TfLiteTensorDim tensor i → TfLiteTensorDim tensor i < 2 ^ 31 →
            (v : Int) = TfLiteTensorDim tensor i) := by
  refine ⟨?_, _, shape_value env tensor out, ?_, ?_⟩
  · rcases hsig with h | ⟨s, h, hs⟩
    · simp [_tflitetensor_shape_signature, h]
    · simp [_tflitetensor_shape_signature, h, hs]
  · simp [TfLiteTensorNumDims, TfLiteIntArray.size]
  · intro i hi
    simp only [TfLiteTensorNumDims, TfLiteIntArray.size] at hi
    refine ⟨size_t_of_int (TfLiteTensorDim tensor i), ?_, size_t_of_int_cast _, ?_⟩
    · simp [TfLiteTensorDim, List.getD, List.getElem?_eq_getElem hi]
    · intro h0 h1
      exact size_t_of_int_nonneg _ h0 h1

/-- Instance of `shape_signature_fallback`: the sample tensor has no signature
and the shape `[1, 4]`. -/
theorem shape_signature_fallback_witness :
    (tensor_allocated.dims_signature = none ∨
      ∃ s, tensor_allocated.dims_signature = some s ∧ s.size = 0) ∧
    _tflitetensor_shape_signature env_ok tensor_allocated none =
      .ok (0, some (Term.list [Term.int 1, Term.int 4])) :=
  ⟨Or.inl rfl, (shape_signature_fallback env_ok tensor_allocated none (Or.inl rfl)).1.trans rfl⟩

/-! ## Quantization parameters -/

/-- The locals keep their initial values when the type is not affine. -/
theorem quantization_locals_not_affine (q : TfLiteQuantization)
    (h : q.type ≠ TfLiteQuantizationType.kTfLiteAffineQuantization) :
    quantization_locals q = .ok (none, 0, none, 0, 0) := by
  simp [quantization_locals, h]

/-- C5: for a tensor whose quantization type is not affine, whatever its
`params` pointer holds, `_tflitetensor_quantization_params` returns status 0
with the triple (empty scale list, empty zero-point list, 0), and
`tflitetensor_quantization_params` on a live handle to that tensor returns ok
of that triple. -/
theorem quantization_params_not_affine (env : Env) (tensor : TfLiteTensor) (out : Option Term)
    (htype : tensor.quantization.type ≠ TfLiteQuantizationType.kTfLiteAffineQuantization) :
    _tflitetensor_quantization_params env tensor out =
      .ok (0, some (Term.tuple [Term.list [], Term.list [], Term.int 0])) ∧
    ∀ (heap : Heap) (self_nif : Term) (p : Nat),
      enif_get_resource self_nif = some (some p) → heap p = some tensor →
      tflitetensor_quantization_params env heap [self_nif] =
        .ok (erlang.nif.ok (Term.tuple [Term.list [], Term.list [], Term.int 0])) := by
  have hq : ∀ o, _tflitetensor_quantization_params env tensor o =
      .ok (0, some (Term.tuple [Term.list [], Term.list [], Term.int 0])) := by
    intro o
    simp [_tflitetensor_quantization_params, quantization_locals_not_affine _ htype,
      erlang.nif.make_f64_list_from_c_array, erlang.nif.make_i32_list_from_c_array,
      erlang.nif.make_list_from_c_array, read_term, enif_make_int]
  refine ⟨hq out, ?_⟩
  intro heap self_nif p hres hlive
  simp [tflitetensor_quantization_params, hres, deref, hlive, hq none, read_term]

/-- Instance of `quantization_params_not_affine`, in an environment where
every allocation fails. -/
theorem quantization_params_not_affine_witness :
    tensor_allocated.quantization.type ≠ TfLiteQuantizationType.kTfLiteAffineQuantization ∧
    _tflitetensor_quantization_params env_no_memory tensor_allocated none =
      .ok (0, some (Term.tuple [Term.list [], Term.list [], Term.int 0])) ∧
    tflitetensor_quantization_params env_no_memory (heap_with tensor_allocated) [handle16] =
      .ok (erlang.nif.ok (Term.tuple [Term.list [], Term.list [], Term.int 0])) :=
  ⟨by decide,
    (quantization_params_not_affine env_no_memory tensor_allocated none (by decide)).1,
    (quantization_params_not_affine env_no_memory tensor_allocated none (by decide)).2
      (heap_with tensor_allocated) handle16 16 rfl rfl⟩

/-! ## Sparsity parameters -/

/-- The list helper on a whole `TfLiteIntArray`. -/
theorem make_i64_of_array (a : Bool) (arr : TfLiteIntArray) (out : Option Term) :
    erlang.nif.make_i64_list_from_c_array a arr.size (some arr.data) out =
      .ok (if arr.size ≠ 0 ∧ a = false then (1, out)
           else (0, some (Term.list (arr.data.map Term.int)))) := by
  unfold erlang.nif.make_i64_list_from_c_array erlang.nif.make_list_from_c_array TfLiteIntArray.size
  by_cases h0 : arr.data.length = 0
  · have : arr.data = [] := List.length_eq_zero.mp h0
    simp [this]
  · cases a <;> simp [h0]

/-- The entry built for a dense dimension. -/
theorem entry_dense (env : Env) (i : Nat) (d : TfLiteDimensionMetadata)
    (h : d.format = TfLiteDimensionType.kTfLiteDimDense) :
    dim_metadata_entry env i d = .ok (some (Term.map
      [(Term.atom "format", Term.int 0), (Term.atom "dense_size", Term.int d.dense_size)])) := by
  simp [dim_metadata_entry, h, enif_make_map_from_arrays, erlang.nif.atom, erlang.nif.make]

/-- The entry built for a sparse dimension with both arrays present. -/
theorem entry_sparse (env : Env) (i : Nat) (d : TfLiteDimensionMetadata)
    (segments indices : TfLiteIntArray)
    (h : d.format = TfLiteDimensionType.kTfLiteDimSparseCSR)
    (hs : d.array_segments = some segments) (hi : d.array_indices = some indices) :
    dim_metadata_entry env i d =
      .ok (if (segments.size ≠ 0 ∧ env.alloc_array_segments i = false) ∨
              (indices.size ≠ 0 ∧ env.alloc_array_indices i = false) then none
           else some (Term.map [(Term.atom "format", Term.int 1),
              (Term.atom "array_segments", Term.list (segments.data.map Term.int)),
              (Term.atom "array_indices", Term.list (indices.data.map Term.int))])) := by
  unfold dim_metadata_entry
  simp only [h, hs, hi, make_i64_of_array]
  by_cases c1 : segments.size ≠ 0 ∧ env.alloc_array_segments i = false
  · simp [c1]
  · by_cases c2 : indices.size ≠ 0 ∧ env.alloc_array_indices i = false
    · simp [c1, c2]
    · simp [c1, c2, read_term, enif_make_map_from_arrays, erlang.nif.atom, erlang.nif.make]

/-- A built entry agrees with its dimension. -/
theorem entry_success (env : Env) (i : Nat) (d : TfLiteDimensionMetadata) (e : Term)
    (h : dim_metadata_entry env i d = .ok (some e)) : entry_consistent d e := by
  unfold entry_consistent
  cases hf : d.format
  · rw [entry_dense env i d hf] at h
    simp at h
    simp [h]
  · cases hs : d.array_segments with
    | none => simp [dim_metadata_entry, hf, hs] at h
    | some segments =>
      cases hi : d.array_indices with
      | none =>
        unfold dim_metadata_entry at h
        simp only [hf, hs, hi, make_i64_of_array] at h
        by_cases c1 : segments.size ≠ 0 ∧ env.alloc_array_segments i = false
        · simp [c1] at h
        · simp [c1] at h
      | some indices =>
        rw [entry_sparse env i d segments indices hf hs hi] at h
        refine ⟨segments, indices, rfl, rfl, ?_⟩
        split at h
        · simp at h
        · simp at h
          exact h.symm

/-- A completed loop built one entry per index, in order. -/
theorem loop_success (env : Env) (ds : List TfLiteDimensionMetadata) :
    ∀ (n i : Nat) (es : List Term), dim_metadata_loop env (some ds) n i = .ok (some es) →
      es.length = n ∧ ∀ k, k < n → ∃ d e, ds[i + k]? = some d ∧
        es[k]? = some e ∧ dim_metadata_entry env (i + k) d = .ok (some e) := by
  intro n
  induction n with
  | zero =>
    intro i es h
    simp [dim_metadata_loop] at h
    subst h
    simp
  | succ n ih =>
    intro i es h
    unfold dim_metadata_loop at h
    cases hd : ds[i]? with
    | none => simp [hd] at h
    | some d =>
      simp only [hd] at h
      cases he : dim_metadata_entry env i d with
      | error f => simp [he] at h
      | ok oe =>
        cases oe with
        | none => simp [he] at h
        | some e =>
          simp only [he] at h
          cases hr : dim_metadata_loop env (some ds) n (i + 1) with
          | error f => simp [hr] at h
          | ok orest =>
            cases orest with
            | none => simp [hr] at h
            | some rest =>
              rw [hr] at h
              simp at h
              subst h
              obtain ⟨hlen, hall⟩ := ih (i + 1) rest hr
              refine ⟨by simp [hlen], ?_⟩
              intro k hk
              cases k with
              | zero => exact ⟨d, e, by simpa using hd, by simp, by simpa using he⟩
              | succ k =>
                obtain ⟨d', e', h2, h3, h4⟩ := hall k (by omega)
                have hidx : i + (k + 1) = i + 1 + k := by omega
                refine ⟨d', e', ?_, by simpa using h3, ?_⟩
                · rw [hidx]; exact h2
                · rw [hidx]; exact h4

/-- With a null `dim_metadata` the loop completes only for size 0. -/
theorem loop_null (env : Env) (n i : Nat) (es : List Term)
    (h : dim_metadata_loop env none n i = .ok (some es)) : n = 0 := by
  cases n with
  | zero => rfl
  | succ n => simp [dim_metadata_loop] at h

/-- What a successful run of `_tflitetensor_sparsity_params` on a non-null
sparsity struct went through. -/
theorem sparsity_success (env : Env) (tensor : TfLiteTensor) (out o : Option Term)
    (param : TfLiteSparsity) (hsp : tensor.sparsity = some param)
    (h : _tflitetensor_sparsity_params env tensor out = .ok (0, o)) :
    ∃ traversal_order block_map entries,
      param.traversal_order = some traversal_order ∧ param.block_map = some block_map ∧
      dim_metadata_loop env param.dim_metadata param.dim_metadata_size 0 = .ok (some entries) ∧
      o = some (Term.map [(Term.atom "traversal_order", Term.list (traversal_order.data.map Term.int)),
        (Term.atom "block_map", Term.list (block_map.data.map Term.int)),
        (Term.atom "dim_metadata", Term.list entries)]) := by
  unfold _tflitetensor_sparsity_params at h
  simp only [hsp] at h
  cases ht : param.traversal_order with
  | none => simp [ht] at h
  | some tr =>
    simp only [ht, make_i64_of_array] at h
    by_cases c1 : tr.size ≠ 0 ∧ env.alloc_traversal_order = false
    · simp [c1] at h
    · simp only [c1, if_false] at h
      cases hb : param.block_map with
      | none => simp [hb] at h
      | some bm =>
        simp only [hb, make_i64_of_array] at h
        by_cases c2 : bm.size ≠ 0 ∧ env.alloc_block_map = false
        · simp [c2] at h
        · simp only [c2, if_false] at h
          cases ha : env.alloc_dim_metadata with
          | false => simp [ha] at h
          | true =>
            simp only [ha] at h
            cases hl : dim_metadata_loop env param.dim_metadata param.dim_metadata_size 0 with
            | error f => simp [hl] at h
            | ok oes =>
              cases oes with
              | none => simp [hl] at h
              | some es =>
                simp [hl, read_term, enif_make_map_from_arrays, enif_make_list_from_array,
                  erlang.nif.atom] at h
                exact ⟨tr, bm, es, rfl, rfl, rfl, h.symm⟩

/-- An entry is built when its pointers are set and allocations succeed. -/
theorem entry_produced (env : Env) (i : Nat) (d : TfLiteDimensionMetadata)
    (hd : dimension_pointers_set d) (ha : sparsity_allocations_succeed env) :
    ∃ e, dim_metadata_entry env i d = .ok (some e) := by
  cases hf : d.format
  · exact ⟨_, entry_dense env i d hf⟩
  · rcases hd with h | ⟨h1, h2⟩
    · rw [hf] at h; cases h
    · obtain ⟨sg, hs⟩ := Option.ne_none_iff_exists'.mp h1
      obtain ⟨ix, hi⟩ := Option.ne_none_iff_exists'.mp h2
      refine ⟨Term.map [(Term.atom "format", Term.int 1),
        (Term.atom "array_segments", Term.list (sg.data.map Term.int)),
        (Term.atom "array_indices", Term.list (ix.data.map Term.int))], ?_⟩
      rw [entry_sparse env i d sg ix hf hs hi]
      simp [(ha.2.2.2 i).1, (ha.2.2.2 i).2]

/-- The loop completes when every entry can be built. -/
theorem loop_produced (env : Env) (ds : List TfLiteDimensionMetadata)
    (ha : sparsity_allocations_succeed env) :
    ∀ (n i : Nat), (∀ k, k < n → ∃ d, ds[i + k]? = some d ∧ dimension_pointers_set d) →
      ∃ es, dim_metadata_loop env (some ds) n i = .ok (some es) := by
  intro n
  induction n with
  | zero => intro i _; exact ⟨[], rfl⟩
  | succ n ih =>
    intro i h
    obtain ⟨d, hd, hp⟩ := h 0 (by omega)
    obtain ⟨e, he⟩ := entry_produced env i d hp ha
    obtain ⟨rest, hr⟩ := ih (i + 1) (by
      intro k hk
      obtain ⟨d', h1, h2⟩ := h (k + 1) (by omega)
      exact ⟨d', by rw [show i + 1 + k = i + (k + 1) by omega]; exact h1, h2⟩)
    refine ⟨e :: rest, ?_⟩
    unfold dim_metadata_loop
    simp only [Nat.add_zero] at hd
    simp [hd, he, hr]

/-- The sparsity helper succeeds on valid pointers with working allocation. -/
theorem sparsity_produced (env : Env) (tensor : TfLiteTensor) (out : Option Term)
    (param : TfLiteSparsity) (hsp : tensor.sparsity = some param)
    (hp : sparsity_pointers_set param) (ha : sparsity_allocations_succeed env) :
    ∃ v, _tflitetensor_sparsity_params env tensor out = .ok (0, some v) := by
  obtain ⟨h1, h2, h3⟩ := hp
  obtain ⟨tr, ht⟩ := Option.ne_none_iff_exists'.mp h1
  obtain ⟨bm, hb⟩ := Option.ne_none_iff_exists'.mp h2
  have hloop : ∃ es, dim_metadata_loop env param.dim_metadata param.dim_metadata_size 0 =
      .ok (some es) := by
    cases hdm : param.dim_metadata with
    | none =>
      cases hn : param.dim_metadata_size with
      | zero => exact ⟨[], rfl⟩
      | succ n =>
        obtain ⟨d, hd, _⟩ := h3 0 (by omega)
        simp [hdm] at hd
    | some ds =>
      apply loop_produced env ds ha
      intro k hk
      obtain ⟨d, hd, hq⟩ := h3 k hk
      refine ⟨d, ?_, hq⟩
      simpa [hdm] using hd
  obtain ⟨es, hl⟩ := hloop
  refine ⟨Term.map [(Term.atom "traversal_order", Term.list (tr.data.map Term.int)),
    (Term.atom "block_map", Term.list (bm.data.map Term.int)),
    (Term.atom "dim_metadata", Term.list es)], ?_⟩
  unfold _tflitetensor_sparsity_params
  simp only [hsp, ht, hb, make_i64_of_array, ha.1, ha.2.1, ha.2.2.1, hl]
  simp [read_term, enif_make_map_from_arrays, enif_make_list_from_array, erlang.nif.atom]

/-- The three outcomes of the list helper. -/
theorem make_list_cases {α : Type} (enc : α → Term) (a : Bool) (n : Nat) (data : Option (List α))
    (out : Option Term) :
    erlang.nif.make_list_from_c_array enc a n data out = .error Fault.outOfBounds ∨
    (∃ xs, erlang.nif.make_list_from_c_array enc a n data out = .ok (0, some (Term.list xs)) ∧
      (data ≠ none → xs.length = n)) ∨
    erlang.nif.make_list_from_c_array enc a n data out = .ok (1, out) := by
  unfold erlang.nif.make_list_from_c_array
  cases data with
  | none => exact Or.inr (Or.inl ⟨[], rfl, by simp⟩)
  | some xs =>
    by_cases h0 : n = 0
    · exact Or.inr (Or.inl ⟨[], by simp [h0], by simp [h0]⟩)
    · cases a
      · simp [h0]
      · by_cases h1 : n ≤ xs.length
        · refine Or.inr (Or.inl ⟨(xs.take n).map enc, by simp [h0, h1], by simp [h1]⟩)
        · simp [h0, h1]

/-- A failing scale list makes the quantization helper return 1. -/
theorem quant_scale_fails (env : Env) (tensor : TfLiteTensor) (out : Option Term)
    (sd : Option (List Nat)) (ss : Nat) (zd : Option (List Int)) (zs : Nat) (qd : Int)
    (hl : quantization_locals tensor.quantization = .ok (sd, ss, zd, zs, qd))
    (hf : construction_fails (erlang.nif.make_f64_list_from_c_array env.alloc_scale ss sd none)) :
    _tflitetensor_quantization_params env tensor out = .ok (1, out) := by
  obtain ⟨s, o, hr, hs⟩ := hf
  simp [_tflitetensor_quantization_params, hl, hr, hs]

/-- A failing zero-point list makes the quantization helper return 1. -/
theorem quant_zero_point_fails (env : Env) (tensor : TfLiteTensor) (out : Option Term)
    (sd : Option (List Nat)) (ss : Nat) (zd : Option (List Int)) (zs : Nat) (qd : Int)
    (scale : Option Term)
    (hl : quantization_locals tensor.quantization = .ok (sd, ss, zd, zs, qd))
    (hsc : erlang.nif.make_f64_list_from_c_array env.alloc_scale ss sd none = .ok (0, scale))
    (hf : construction_fails
      (erlang.nif.make_i32_list_from_c_array env.alloc_zero_point zs zd none)) :
    _tflitetensor_quantization_params env tensor out = .ok (1, out) := by
  obtain ⟨s, o, hr, hs⟩ := hf
  simp [_tflitetensor_quantization_params, hl, hsc, hr, hs]

/-- The two normal returns of the quantization helper. -/
theorem quant_status (env : Env) (tensor : TfLiteTensor) (out : Option Term) (status : Nat)
    (o : Option Term) (h : _tflitetensor_quantization_params env tensor out = .ok (status, o)) :
    (status = 1 ∧ o = out) ∨
    (status = 0 ∧ ∃ sd ss zd zs qd scale zero_point,
      quantization_locals tensor.quantization = .ok (sd, ss, zd, zs, qd) ∧
      erlang.nif.make_f64_list_from_c_array env.alloc_scale ss sd none =
        .ok (0, some (Term.list scale)) ∧
      erlang.nif.make_i32_list_from_c_array env.alloc_zero_point zs zd none =
        .ok (0, some (Term.list zero_point)) ∧
      (sd ≠ none → scale.length = ss) ∧ (zd ≠ none → zero_point.length = zs) ∧
      o = some (Term.tuple [Term.list scale, Term.list zero_point, Term.int qd])) := by
  unfold _tflitetensor_quantization_params at h
  cases hl : quantization_locals tensor.quantization with
  | error f => simp [hl] at h
  | ok locals =>
    obtain ⟨sd, ss, zd, zs, qd⟩ := locals
    simp only [hl] at h
    rcases make_list_cases Term.double env.alloc_scale ss sd none with h1 | ⟨xs, h1, hx⟩ | h1
    · simp [erlang.nif.make_f64_list_from_c_array, h1] at h
    · simp only [erlang.nif.make_f64_list_from_c_array, h1] at h
      rcases make_list_cases Term.int env.alloc_zero_point zs zd none with h2 | ⟨ys, h2, hy⟩ | h2
      · simp [erlang.nif.make_i32_list_from_c_array, h2] at h
      · simp [erlang.nif.make_i32_list_from_c_array, h2, read_term, enif_make_int] at h
        refine Or.inr ⟨h.1.symm, sd, ss, zd, zs, qd, xs, ys, rfl, h1, h2, hx, hy, h.2.symm⟩
      · simp [erlang.nif.make_i32_list_from_c_array, h2] at h
        exact Or.inl ⟨h.1.symm, h.2.symm⟩
    · simp [erlang.nif.make_f64_list_from_c_array, h1] at h
      exact Or.inl ⟨h.1.symm, h.2.symm⟩

/-- A failing traversal-order list makes the sparsity helper return 1. -/
theorem sparsity_traversal_fails (env : Env) (tensor : TfLiteTensor) (out : Option Term)
    (param : TfLiteSparsity) (tr : TfLiteIntArray)
    (hsp : tensor.sparsity = some param) (ht : param.traversal_order = some tr)
    (hf : construction_fails (erlang.nif.make_i64_list_from_c_array env.alloc_traversal_order
      tr.size (some tr.data) none)) :
    _tflitetensor_sparsity_params env tensor out = .ok (1, out) := by
  obtain ⟨s, o, hr, hs⟩ := hf
  simp [_tflitetensor_sparsity_params, hsp, ht, hr, hs]

/-- A failing block-map list makes the sparsity helper return 1. -/
theorem sparsity_block_map_fails (env : Env) (tensor : TfLiteTensor) (out : Option Term)
    (param : TfLiteSparsity) (tr bm : TfLiteIntArray) (val0 : Option Term)
    (hsp : tensor.sparsity = some param) (ht : param.traversal_order = some tr)
    (h0 : erlang.nif.make_i64_list_from_c_array env.alloc_traversal_order
      tr.size (some tr.data) none = .ok (0, val0))
    (hb : param.block_map = some bm)
    (hf : construction_fails (erlang.nif.make_i64_list_from_c_array env.alloc_block_map
      bm.size (some bm.data) none)) :
    _tflitetensor_sparsity_params env tensor out = .ok (1, out) := by
  obtain ⟨s, o, hr, hs⟩ := hf
  simp [_tflitetensor_sparsity_params, hsp, ht, h0, hb, hr, hs]

/-- A failing `dim_metadata` array or loop makes the sparsity helper return 1. -/
theorem sparsity_dim_metadata_fails (env : Env) (tensor : TfLiteTensor) (out : Option Term)
    (param : TfLiteSparsity) (tr bm : TfLiteIntArray) (val0 val1 : Option Term)
    (hsp : tensor.sparsity = some param) (ht : param.traversal_order = some tr)
    (h0 : erlang.nif.make_i64_list_from_c_array env.alloc_traversal_order
      tr.size (some tr.data) none = .ok (0, val0))
    (hb : param.block_map = some bm)
    (h1 : erlang.nif.make_i64_list_from_c_array env.alloc_block_map
      bm.size (some bm.data) none = .ok (0, val1))
    (hf : env.alloc_dim_metadata = false ∨
      dim_metadata_loop env param.dim_metadata param.dim_metadata_size 0 = .ok none) :
    _tflitetensor_sparsity_params env tensor out = .ok (1, out) := by
  rcases hf with hf | hf
  · simp [_tflitetensor_sparsity_params, hsp, ht, h0, hb, h1, hf]
  · cases ha : env.alloc_dim_metadata <;>
      simp [_tflitetensor_sparsity_params, hsp, ht, h0, hb, h1, hf, ha]

/-- The loop returns at the first entry that fails. -/
theorem loop_fails (env : Env) (ds : List TfLiteDimensionMetadata) :
    ∀ (k i n : Nat) (d : TfLiteDimensionMetadata), k < n →
      (∀ j, j < k → ∃ dj ej, ds[i + j]? = some dj ∧
        dim_metadata_entry env (i + j) dj = .ok (some ej)) →
      ds[i + k]? = some d → dim_metadata_entry env (i + k) d = .ok none →
      dim_metadata_loop env (some ds) n i = .ok none := by
  intro k
  induction k with
  | zero =>
    intro i n d hk _ hd he
    obtain ⟨m, rfl⟩ : ∃ m, n = m + 1 := ⟨n - 1, by omega⟩
    unfold dim_metadata_loop
    simp only [Nat.add_zero] at hd he
    simp [hd, he]
  | succ k ih =>
    intro i n d hk hpre hd he
    obtain ⟨m, rfl⟩ : ∃ m, n = m + 1 := ⟨n - 1, by omega⟩
    obtain ⟨d0, e0, hd0, he0⟩ := hpre 0 (by omega)
    simp only [Nat.add_zero] at hd0 he0
    have hrec : dim_metadata_loop env (some ds) m (i + 1) = .ok none := by
      apply ih (i + 1) m d (by omega)
      · intro j hj
        obtain ⟨dj, ej, h1, h2⟩ := hpre (j + 1) (by omega)
        rw [show i + (j + 1) = i + 1 + j by omega] at h1 h2
        exact ⟨dj, ej, h1, h2⟩
      · rw [show i + 1 + k = i + (k + 1) by omega]; exact hd
      · rw [show i + 1 + k = i + (k + 1) by omega]; exact he
    unfold dim_metadata_loop
    simp [hd0, he0, hrec]

/-- A failing segments list fails the entry. -/
theorem entry_segments_fails (env : Env) (i : Nat) (d : TfLiteDimensionMetadata)
    (sg : TfLiteIntArray) (hf : d.format ≠ TfLiteDimensionType.kTfLiteDimDense)
    (hs : d.array_segments = some sg)
    (hfail : construction_fails (erlang.nif.make_i64_list_from_c_array
      (env.alloc_array_segments i) sg.size (some sg.data) none)) :
    dim_metadata_entry env i d = .ok none := by
  obtain ⟨s, o, hr, hs0⟩ := hfail
  simp [dim_metadata_entry, hf, hs, hr, hs0]

/-- A failing indices list fails the entry. -/
theorem entry_indices_fails (env : Env) (i : Nat) (d : TfLiteDimensionMetadata)
    (sg ix : TfLiteIntArray) (segments : Option Term)
    (hf : d.format ≠ TfLiteDimensionType.kTfLiteDimDense)
    (hs : d.array_segments = some sg)
    (hok : erlang.nif.make_i64_list_from_c_array
      (env.alloc_array_segments i) sg.size (some sg.data) none = .ok (0, segments))
    (hi : d.array_indices = some ix)
    (hfail : construction_fails (erlang.nif.make_i64_list_from_c_array
      (env.alloc_array_indices i) ix.size (some ix.data) none)) :
    dim_metadata_entry env i d = .ok none := by
  obtain ⟨s, o, hr, hs0⟩ := hfail
  simp [dim_metadata_entry, hf, hs, hok, hi, hr, hs0]

/-- A non-zero status of the sparsity helper is 1 and leaves `out` alone. -/
theorem sparsity_status (env : Env) (tensor : TfLiteTensor) (out : Option Term) (status : Nat)
    (o : Option Term) (h : _tflitetensor_sparsity_params env tensor out = .ok (status, o))
    (hs : status ≠ 0) : status = 1 ∧ o = out := by
  unfold _tflitetensor_sparsity_params at h
  cases hsp : tensor.sparsity with
  | none =>
    simp [hsp] at h
    omega
  | some param =>
    simp only [hsp] at h
    cases ht : param.traversal_order with
    | none => simp [ht] at h
    | some tr =>
      simp only [ht, make_i64_of_array] at h
      by_cases c1 : tr.size ≠ 0 ∧ env.alloc_traversal_order = false
      · simp [c1] at h
        exact ⟨h.1.symm, h.2.symm⟩
      · simp only [c1, if_false] at h
        cases hb : param.block_map with
        | none => simp [hb] at h
        | some bm =>
          simp only [hb, make_i64_of_array] at h
          by_cases c2 : bm.size ≠ 0 ∧ env.alloc_block_map = false
          · simp [c2] at h
            exact ⟨h.1.symm, h.2.symm⟩
          · simp only [c2, if_false] at h
            cases ha : env.alloc_dim_metadata with
            | false =>
              simp [ha] at h
              exact ⟨h.1.symm, h.2.symm⟩
            | true =>
              simp only [ha] at h
              cases hl : dim_metadata_loop env param.dim_metadata param.dim_metadata_size 0 with
              | error f => simp [hl] at h
              | ok oes =>
                cases oes with
                | none =>
                  simp [hl] at h
                  exact ⟨h.1.symm, h.2.symm⟩
                | some es =>
                  simp [hl, read_term] at h
                  omega

/-- The operation `tflitetensor_dims` on a failed helper. -/
theorem dims_of_failure (env : Env) (heap : Heap) (self_nif : Term) (p : Nat)
    (tensor : TfLiteTensor) (status : Nat) (o : Option Term)
    (hres : enif_get_resource self_nif = some (some p)) (hlive : heap p = some tensor)
    (hr : _tflitetensor_shape env tensor none = .ok (status, o)) (hs : status ≠ 0) :
    tflitetensor_dims env heap [self_nif] =
      .ok (erlang.nif.error "cannot allocate memory for storing tensor shape") := by
  simp [tflitetensor_dims, hres, deref, hlive, hr, hs]

/-- The operation `tflitetensor_dims` returns ok only from a successful
helper. -/
theorem dims_ok_only (env : Env) (heap : Heap) (argv : List Term) (v : Term)
    (h : tflitetensor_dims env heap argv = .ok (erlang.nif.ok v)) :
    ∃ self_nif p tensor, argv = [self_nif] ∧ enif_get_resource self_nif = some (some p) ∧
      heap p = some tensor ∧ _tflitetensor_shape env tensor none = .ok (0, some v) := by
  unfold tflitetensor_dims at h
  split at h
  · rename_i self_nif
    split at h
    · rename_i p hres
      cases hh : heap p with
      | none => simp [deref, hh] at h
      | some tensor =>
        simp only [deref, hh] at h
        cases hr : _tflitetensor_shape env tensor none with
        | error f => simp [hr] at h
        | ok r =>
          obtain ⟨status, o⟩ := r
          simp only [hr] at h
          by_cases hs : status = 0
          · subst hs
            cases o with
            | none => simp [read_term] at h
            | some t =>
              simp [read_term, erlang.nif.ok] at h
              subst h
              exact ⟨self_nif, p, tensor, rfl, hres, hh, hr⟩
          · simp [hs, erlang.nif.ok, erlang.nif.error] at h
    · simp [erlang.nif.ok, erlang.nif.error] at h
    · simp [erlang.nif.ok, erlang.nif.error] at h
  · simp [erlang.nif.ok] at h

/-- The operation `tflitetensor_quantization_params` on a failed helper. -/
theorem quantization_of_failure (env : Env) (heap : Heap) (self_nif : Term) (p : Nat)
    (tensor : TfLiteTensor) (status : Nat) (o : Option Term)
    (hres : enif_get_resource self_nif = some (some p)) (hlive : heap p = some tensor)
    (hr : _tflitetensor_quantization_params env tensor none = .ok (status, o))
    (hs : status ≠ 0) :
    tflitetensor_quantization_params env heap [self_nif] =
      .ok (erlang.nif.error "cannot allocate memory for storing tensor quantization params") := by
  simp [tflitetensor_quantization_params, hres, deref, hlive, hr, hs]

/-- The operation `tflitetensor_quantization_params` returns ok only from a
successful helper. -/
theorem quantization_ok_only (env : Env) (heap : Heap) (argv : List Term) (v : Term)
    (h : tflitetensor_quantization_params env heap argv = .ok (erlang.nif.ok v)) :
    ∃ self_nif p tensor, argv = [self_nif] ∧ enif_get_resource self_nif = some (some p) ∧
      heap p = some tensor ∧
      _tflitetensor_quantization_params env tensor none = .ok (0, some v) := by
  unfold tflitetensor_quantization_params at h
  split at h
  · rename_i self_nif
    split at h
    · rename_i p hres
      cases hh : heap p with
      | none => simp [deref, hh] at h
      | some tensor =>
        simp only [deref, hh] at h
        cases hr : _tflitetensor_quantization_params env tensor none with
        | error f => simp [hr] at h
        | ok r =>
          obtain ⟨status, o⟩ := r
          simp only [hr] at h
          by_cases hs : status = 0
          · subst hs
            cases o with
            | none => simp [read_term] at h
            | some t =>
              simp [read_term, erlang.nif.ok] at h
              subst h
              exact ⟨self_nif, p, tensor, rfl, hres, hh, hr⟩
          · simp [hs, erlang.nif.ok, erlang.nif.error] at h
    · simp [erlang.nif.ok, erlang.nif.error] at h
    · simp [erlang.nif.ok, erlang.nif.error] at h
  · simp [erlang.nif.ok] at h

/-- The reason of an error term is determined by the term. -/
theorem error_inj (a b : String) (h : erlang.nif.error a = erlang.nif.error b) : a = b := by
  simpa [erlang.nif.error] using h

/-- Reasons of `tflitetensor_dims`. -/
theorem dims_reasons (env : Env) (heap : Heap) (argv : List Term) (r : String)
    (h : tflitetensor_dims env heap argv = .ok (erlang.nif.error r)) :
    r ∈ ["cannot allocate memory for storing tensor shape", "oh nyo erlang",
      "cannot access resource"] := by
  unfold tflitetensor_dims at h
  split at h
  · split at h
    · rename_i p hres
      cases hh : heap p with
      | none => simp [deref, hh] at h
      | some tensor =>
        simp only [deref, hh] at h
        cases hr : _tflitetensor_shape env tensor none with
        | error f => simp [hr] at h
        | ok res =>
          obtain ⟨status, o⟩ := res
          simp only [hr] at h
          by_cases hs : status = 0
          · subst hs
            cases o with
            | none => simp [read_term] at h
            | some t => simp [read_term, erlang.nif.ok, erlang.nif.error] at h
          · simp only [hs, ne_eq, not_false_eq_true, if_true] at h
            rw [← error_inj _ _ (Except.ok.inj h)]
            simp
    · rw [← error_inj _ _ (Except.ok.inj h)]
      simp
    · rw [← error_inj _ _ (Except.ok.inj h)]
      simp
  · simp [erlang.nif.error] at h

/-- Reasons of `tflitetensor_quantization_params`. -/
theorem quantization_reasons (env : Env) (heap : Heap) (argv : List Term) (r : String)
    (h : tflitetensor_quantization_params env heap argv = .ok (erlang.nif.error r)) :
    r ∈ ["cannot allocate memory for storing tensor quantization params", "oh nyo erlang",
      "cannot access resource"] := by
  unfold tflitetensor_quantization_params at h
  split at h
  · split at h
    · rename_i p hres
      cases hh : heap p with
      | none => simp [deref, hh] at h
      | some tensor =>
        simp only [deref, hh] at h
        cases hr : _tflitetensor_quantization_params env tensor none with
        | error f => simp [hr] at h
        | ok res =>
          obtain ⟨status, o⟩ := res
          simp only [hr] at h
          by_cases hs : status = 0
          · subst hs
            cases o with
            | none => simp [read_term] at h
            | some t => simp [read_term, erlang.nif.ok, erlang.nif.error] at h
          · simp only [hs, ne_eq, not_false_eq_true, if_true] at h
            rw [← error_inj _ _ (Except.ok.inj h)]
            simp
    · rw [← error_inj _ _ (Except.ok.inj h)]
      simp
    · rw [← error_inj _ _ (Except.ok.inj h)]
      simp
  · simp [erlang.nif.error] at h

/-- Reasons of `tflitetensor_to_binary`. -/
theorem to_binary_reasons (env : Env) (heap : Heap) (argv : List Term) (r : String)
    (h : tflitetensor_to_binary env heap argv = .ok (erlang.nif.error r)) :
    r ∈ ["cannot allocate enough memory for the tensor", "oh nyo erlang",
      "cannot access resource"] := by
  unfold tflitetensor_to_binary at h
  split at h
  · split at h
    · rename_i p hres
      cases hh : heap p with
      | none => simp [deref, hh] at h
      | some tensor =>
        simp only [deref, hh] at h
        cases ha : env.alloc_binary with
        | false =>
          simp only [ha, Bool.not_false, if_true] at h
          rw [← error_inj _ _ (Except.ok.inj h)]
          simp
        | true =>
          simp only [ha] at h
          cases hm : memcpy_from tensor.data tensor.bytes with
          | error f => simp [hm] at h
          | ok bs => simp [hm, erlang.nif.ok, erlang.nif.error] at h
    · rw [← error_inj _ _ (Except.ok.inj h)]
      simp
    · rw [← error_inj _ _ (Except.ok.inj h)]
      simp
  · simp [erlang.nif.error] at h

/-- Reasons of `tflitetensor_set_data`. -/
theorem set_data_reasons (env : Env) (heap heap' : Heap) (argv : List Term) (r : String)
    (h : tflitetensor_set_data env heap argv = .ok (erlang.nif.error r, heap')) :
    r ∈ ["tensor is not allocated yet? Please call TFLite.Interpreter.allocateTensors first",
      "cannot get input data", "oh nyo erlang", "cannot access resource"] := by
  unfold tflitetensor_set_data at h
  split at h
  · split at h
    · rename_i p hres
      split at h
      · rename_i data hbin
        cases hh : heap p with
        | none => simp [deref, hh] at h
        | some tensor =>
          simp only [deref, hh] at h
          split at h
          · rw [← error_inj _ _ (congrArg Prod.fst (Except.ok.inj h))]
            simp
          · rename_i buf hbuf
            cases hm : memcpy_into buf data with
            | error f => simp [hm] at h
            | ok bs => simp [hm, erlang.nif.ok0, erlang.nif.error] at h
      · rw [← error_inj _ _ (congrArg Prod.fst (Except.ok.inj h))]
        simp
    · rw [← error_inj _ _ (congrArg Prod.fst (Except.ok.inj h))]
      simp
    · rw [← error_inj _ _ (congrArg Prod.fst (Except.ok.inj h))]
      simp
  · simp [erlang.nif.error] at h

/-- The result of `tflitetensor_type` on a live handle. -/
theorem type_live (env : Env) (heap : Heap) (self_nif : Term) (p : Nat) (tensor : TfLiteTensor)
    (hres : enif_get_resource self_nif = some (some p)) (hlive : heap p = some tensor) :
    tflitetensor_type env heap [self_nif] =
      .ok (match env.tensor_type_to_erl_term (TfLiteTensorType tensor) with
        | some tensor_type => tensor_type
        | none => erlang.nif.error "invalid tensor") := by
  cases ht : env.tensor_type_to_erl_term (TfLiteTensorType tensor) <;>
    simp [tflitetensor_type, hres, deref, hlive, _tflitetensor_type, ht, read_term]

/-- Reasons of `tflitetensor_type`. -/
theorem type_reasons (env : Env) (heap : Heap) (argv : List Term) (r : String)
    (h : tflitetensor_type env heap argv = .ok (erlang.nif.error r)) :
    r ∈ ["invalid tensor", "oh nyo erlang", "cannot access resource"] ∨
    ∃ self_nif p tensor, argv = [self_nif] ∧ enif_get_resource self_nif = some (some p) ∧
      heap p = some tensor ∧
      env.tensor_type_to_erl_term (TfLiteTensorType tensor) = some (erlang.nif.error r) := by
  unfold tflitetensor_type at h
  split at h
  · rename_i self_nif
    split at h
    · rename_i p hres
      cases hh : heap p with
      | none => simp [deref, hh] at h
      | some tensor =>
        simp only [deref, hh, _tflitetensor_type] at h
        cases ht : env.tensor_type_to_erl_term (TfLiteTensorType tensor) with
        | none =>
          simp only [ht, read_term] at h
          rw [← error_inj _ _ (Except.ok.inj h)]
          exact Or.inl (by simp)
        | some tag =>
          simp only [ht, read_term] at h
          exact Or.inr ⟨self_nif, p, tensor, rfl, hres, hh, by rw [ht, Except.ok.inj h]⟩
    · rw [← error_inj _ _ (Except.ok.inj h)]
      exact Or.inl (by simp)
    · rw [← error_inj _ _ (Except.ok.inj h)]
      exact Or.inl (by simp)
  · simp [erlang.nif.error] at h

/-! ## The claims on sparsity, partial results and reasons -/

/-- C6: `_tflitetensor_sparsity_params` returns the empty map exactly when
the tensor's sparsity pointer is null.  Otherwise, whenever it succeeds, the
result is a map with the three keys `traversal_order`, `block_map` and
`dim_metadata`, where `dim_metadata` is a list of exactly `dim_metadata_size`
entries and the `i`-th entry agrees with the `i`-th native dimension: a dense
dimension gives an entry with only the dense tag and `dense_size`, a sparse
dimension an entry with the sparse tag and exactly the two lists
`array_segments` and `array_indices`.  It does succeed when no pointer it
follows is null and its allocations succeed. -/
theorem sparsity_params_value (env : Env) (tensor : TfLiteTensor) (out : Option Term) :
    (_tflitetensor_sparsity_params env tensor out = .ok (0, some enif_make_new_map) ↔
      tensor.sparsity = none) ∧
    (∀ param o, tensor.sparsity = some param →
      _tflitetensor_sparsity_params env tensor out = .ok (0, o) →
      ∃ traversal_order block_map entries,
        param.traversal_order = some traversal_order ∧ param.block_map = some block_map ∧
        o = some (Term.map
          [(Term.atom "traversal_order", Term.list (traversal_order.data.map Term.int)),
            (Term.atom "block_map", Term.list (block_map.data.map Term.int)),
            (Term.atom "dim_metadata", Term.list entries)]) ∧
        entries.length = param.dim_metadata_size ∧
        ∀ i, i < param.dim_metadata_size →
          ∃ d e, param.dim_metadata.bind (fun ds => ds[i]?) = some d ∧
            entries[i]? = some e ∧ entry_consistent d e) ∧
    (∀ param, tensor.sparsity = some param → sparsity_pointers_set param →
      sparsity_allocations_succeed env →
      ∃ v, _tflitetensor_sparsity_params env tensor out = .ok (0, some v)) := by
  have hmain : ∀ param o, tensor.sparsity = some param →
      _tflitetensor_sparsity_params env tensor out = .ok (0, o) →
      ∃ traversal_order block_map entries,
        param.traversal_order = some traversal_order ∧ param.block_map = some block_map ∧
        o = some (Term.map
          [(Term.atom "traversal_order", Term.list (traversal_order.data.map Term.int)),
            (Term.atom "block_map", Term.list (block_map.data.map Term.int)),
            (Term.atom "dim_metadata", Term.list entries)]) ∧
        entries.length = param.dim_metadata_size ∧
        ∀ i, i < param.dim_metadata_size →
          ∃ d e, param.dim_metadata.bind (fun ds => ds[i]?) = some d ∧
            entries[i]? = some e ∧ entry_consistent d e := by
    intro param o hsp h
    obtain ⟨tr, bm, es, ht, hb, hl, ho⟩ := sparsity_success env tensor out o param hsp h
    cases hdm : param.dim_metadata with
    | none =>
      rw [hdm] at hl
      have hn := loop_null env _ _ _ hl
      rw [hn] at hl
      simp [dim_metadata_loop] at hl
      subst hl
      exact ⟨tr, bm, [], ht, hb, ho, by simp [hn], by intro i hi; omega⟩
    | some ds =>
      rw [hdm] at hl
      obtain ⟨hlen, hall⟩ := loop_success env ds _ _ _ hl
      refine ⟨tr, bm, es, ht, hb, ho, hlen, ?_⟩
      intro i hi
      obtain ⟨d, e, h1, h2, h3⟩ := hall i hi
      simp only [Nat.zero_add] at h1 h3
      exact ⟨d, e, by simpa using h1, h2, entry_success env i d e h3⟩
  refine ⟨⟨?_, ?_⟩, hmain, ?_⟩
  · intro h
    cases hsp : tensor.sparsity with
    | none => rfl
    | some param =>
      obtain ⟨tr, bm, es, _, _, ho, _⟩ := hmain param _ hsp h
      simp [enif_make_new_map] at ho
  · intro hsp
    simp [_tflitetensor_sparsity_params, hsp]
  · intro param hsp hp ha
    exact sparsity_produced env tensor out param hsp hp ha

/-- Instance of `sparsity_params_value`: a sparsity struct with one dense and
one sparse dimension. -/
theorem sparsity_params_value_witness :
    tensor_sparse.sparsity = some sparsity_sample ∧
    _tflitetensor_sparsity_params env_ok tensor_sparse none =
      .ok (0, some (Term.map
        [(Term.atom "traversal_order", Term.list [Term.int 0, Term.int 1]),
          (Term.atom "block_map", Term.list []),
          (Term.atom "dim_metadata", Term.list
            [Term.map [(Term.atom "format", Term.int 0), (Term.atom "dense_size", Term.int 4)],
              Term.map [(Term.atom "format", Term.int 1),
                (Term.atom "array_segments", Term.list [Term.int 0, Term.int 2]),
                (Term.atom "array_indices", Term.list [Term.int 1, Term.int 3])]])])) ∧
    ∃ traversal_order block_map entries,
      sparsity_sample.traversal_order = some traversal_order ∧
      sparsity_sample.block_map = some block_map ∧
      some (Term.map
        [(Term.atom "traversal_order", Term.list [Term.int 0, Term.int 1]),
          (Term.atom "block_map", Term.list []),
          (Term.atom "dim_metadata", Term.list
            [Term.map [(Term.atom "format", Term.int 0), (Term.atom "dense_size", Term.int 4)],
              Term.map [(Term.atom "format", Term.int 1),
                (Term.atom "array_segments", Term.list [Term.int 0, Term.int 2]),
                (Term.atom "array_indices", Term.list [Term.int 1, Term.int 3])]])]) =
        some (Term.map
          [(Term.atom "traversal_order", Term.list (traversal_order.data.map Term.int)),
            (Term.atom "block_map", Term.list (block_map.data.map Term.int)),
            (Term.atom "dim_metadata", Term.list entries)]) ∧
      entries.length = sparsity_sample.dim_metadata_size ∧
      ∀ i, i < sparsity_sample.dim_metadata_size →
        ∃ d e, sparsity_sample.dim_metadata.bind (fun ds => ds[i]?) = some d ∧
          entries[i]? = some e ∧ entry_consistent d e :=
  ⟨rfl, rfl, (sparsity_params_value env_ok tensor_sparse none).2.1 sparsity_sample _ rfl rfl⟩

/-- C9: partial results are never surfaced.  (1) Whenever `_tflitetensor_shape`,
`_tflitetensor_quantization_params` or `_tflitetensor_sparsity_params` returns
a non-zero status, the status is 1 and `out` holds what it held before the
call.  (2) Each failing construction makes its helper return 1 at once: the
`enif_alloc` of the shape; the scale list, and the zero-point list after a
built scale list; the traversal-order list, the block-map list after it, the
`dim_metadata` array or any entry of the loop after those; an entry fails
when its segments list, or its indices list after a built segments list,
fails, and the loop fails at the first failing entry.  (3) With status 0 the
shape helper holds the full dimension list and the quantization helper the
triple of two fully built lists and the dimension.  (4) On a live handle
`tflitetensor_dims` and `tflitetensor_quantization_params` return their
allocation error whenever the helper's status is non-zero, and they return
`ok(v)` only when the helper returned status 0 with `v` in `out`. -/
theorem no_partial_results (env : Env) (tensor : TfLiteTensor) (out : Option Term) :
    ((∀ status o, _tflitetensor_shape env tensor out = .ok (status, o) → status ≠ 0 →
        status = 1 ∧ o = out) ∧
      (∀ status o, _tflitetensor_quantization_params env tensor out = .ok (status, o) →
        status ≠ 0 → status = 1 ∧ o = out) ∧
      (∀ status o, _tflitetensor_sparsity_params env tensor out = .ok (status, o) →
        status ≠ 0 → status = 1 ∧ o = out)) ∧
    ((env.alloc_shape = false → _tflitetensor_shape env tensor out = .ok (1, out)) ∧
      (∀ sd ss zd zs qd, quantization_locals tensor.quantization = .ok (sd, ss, zd, zs, qd) →
        construction_fails (erlang.nif.make_f64_list_from_c_array env.alloc_scale ss sd none) →
        _tflitetensor_quantization_params env tensor out = .ok (1, out)) ∧
      (∀ sd ss zd zs qd scale,
        quantization_locals tensor.quantization = .ok (sd, ss, zd, zs, qd) →
        erlang.nif.make_f64_list_from_c_array env.alloc_scale ss sd none = .ok (0, scale) →
        construction_fails
          (erlang.nif.make_i32_list_from_c_array env.alloc_zero_point zs zd none) →
        _tflitetensor_quantization_params env tensor out = .ok (1, out)) ∧
      (∀ param tr, tensor.sparsity = some param → param.traversal_order = some tr →
        construction_fails (erlang.nif.make_i64_list_from_c_array env.alloc_traversal_order
          tr.size (some tr.data) none) →
        _tflitetensor_sparsity_params env tensor out = .ok (1, out)) ∧
      (∀ param tr bm val0, tensor.sparsity = some param → param.traversal_order = some tr →
        erlang.nif.make_i64_list_from_c_array env.alloc_traversal_order
          tr.size (some tr.data) none = .ok (0, val0) →
        param.block_map = some bm →
        construction_fails (erlang.nif.make_i64_list_from_c_array env.alloc_block_map
          bm.size (some bm.data) none) →
        _tflitetensor_sparsity_params env tensor out = .ok (1, out)) ∧
      (∀ param tr bm val0 val1, tensor.sparsity = some param →
        param.traversal_order = some tr →
        erlang.nif.make_i64_list_from_c_array env.alloc_traversal_order
          tr.size (some tr.data) none = .ok (0, val0) →
        param.block_map = some bm →
        erlang.nif.make_i64_list_from_c_array env.alloc_block_map
          bm.size (some bm.data) none = .ok (0, val1) →
        (env.alloc_dim_metadata = false ∨
          dim_metadata_loop env param.dim_metadata param.dim_metadata_size 0 = .ok none) →
        _tflitetensor_sparsity_params env tensor out = .ok (1, out)) ∧
      (∀ (ds : List TfLiteDimensionMetadata) (k i n : Nat) (d : TfLiteDimensionMetadata),
        k < n →
        (∀ j, j < k → ∃ dj ej, ds[i + j]? = some dj ∧
          dim_metadata_entry env (i + j) dj = .ok (some ej)) →
        ds[i + k]? = some d → dim_metadata_entry env (i + k) d = .ok none →
        dim_metadata_loop env (some ds) n i = .ok none) ∧
      (∀ (i : Nat) (d : TfLiteDimensionMetadata) (sg : TfLiteIntArray),
        d.format ≠ TfLiteDimensionType.kTfLiteDimDense → d.array_segments = some sg →
        construction_fails (erlang.nif.make_i64_list_from_c_array
          (env.alloc_array_segments i) sg.size (some sg.data) none) →
        dim_metadata_entry env i d = .ok none) ∧
      (∀ (i : Nat) (d : TfLiteDimensionMetadata) (sg ix : TfLiteIntArray)
        (segments : Option Term),
        d.format ≠ TfLiteDimensionType.kTfLiteDimDense → d.array_segments = some sg →
        erlang.nif.make_i64_list_from_c_array
          (env.alloc_array_segments i) sg.size (some sg.data) none = .ok (0, segments) →
        d.array_indices = some ix →
        construction_fails (erlang.nif.make_i64_list_from_c_array
          (env.alloc_array_indices i) ix.size (some ix.data) none) →
        dim_metadata_entry env i d = .ok none)) ∧
    ((∀ o, _tflitetensor_shape env tensor out = .ok (0, o) →
        o = some (Term.list
          (tensor.dims.data.map fun d => Term.int ((size_t_of_int d : Nat) : Int)))) ∧
      (∀ o, _tflitetensor_quantization_params env tensor out = .ok (0, o) →
        ∃ sd ss zd zs qd scale zero_point,
          quantization_locals tensor.quantization = .ok (sd, ss, zd, zs, qd) ∧
          erlang.nif.make_f64_list_from_c_array env.alloc_scale ss sd none =
            .ok (0, some (Term.list scale)) ∧
          erlang.nif.make_i32_list_from_c_array env.alloc_zero_point zs zd none =
            .ok (0, some (Term.list zero_point)) ∧
          (sd ≠ none → scale.length = ss) ∧ (zd ≠ none → zero_point.length = zs) ∧
          o = some (Term.tuple [Term.list scale, Term.list zero_point, Term.int qd]))) ∧
    ((∀ (heap : Heap) (self_nif : Term) (p : Nat) (status : Nat) (o : Option Term),
        enif_get_resource self_nif = some (some p) → heap p = some tensor →
        _tflitetensor_shape env tensor none = .ok (status, o) → status ≠ 0 →
        tflitetensor_dims env heap [self_nif] =
          .ok (erlang.nif.error "cannot allocate memory for storing tensor shape")) ∧
      (∀ (heap : Heap) (self_nif : Term) (p : Nat) (status : Nat) (o : Option Term),
        enif_get_resource self_nif = some (some p) → heap p = some tensor →
        _tflitetensor_quantization_params env tensor none = .ok (status, o) → status ≠ 0 →
        tflitetensor_quantization_params env heap [self_nif] =
          .ok (erlang.nif.error
            "cannot allocate memory for storing tensor quantization params")) ∧
      (∀ (heap : Heap) (argv : List Term) (v : Term),
        tflitetensor_dims env heap argv = .ok (erlang.nif.ok v) →
        ∃ self_nif p t, argv = [self_nif] ∧ enif_get_resource self_nif = some (some p) ∧
          heap p = some t ∧ _tflitetensor_shape env t none = .ok (0, some v)) ∧
      (∀ (heap : Heap) (argv : List Term) (v : Term),
        tflitetensor_quantization_params env heap argv = .ok (erlang.nif.ok v) →
        ∃ self_nif p t, argv = [self_nif] ∧ enif_get_resource self_nif = some (some p) ∧
          heap p = some t ∧
          _tflitetensor_quantization_params env t none = .ok (0, some v))) := by
  have hshape := shape_value env tensor out
  refine ⟨⟨?_, ?_, ?_⟩, ⟨?_, ?_, ?_, ?_, ?_, ?_, ?_, ?_, ?_⟩, ⟨?_, ?_⟩, ⟨?_, ?_, ?_, ?_⟩⟩
  · intro status o h hs
    rw [hshape] at h
    cases ha : env.alloc_shape
    · simp [ha] at h
      exact ⟨h.1.symm, h.2.symm⟩
    · simp [ha] at h
      omega
  · intro status o h hs
    rcases quant_status env tensor out status o h with h1 | h1
    · exact h1
    · exact absurd h1.1 hs
  · intro status o h hs
    exact sparsity_status env tensor out status o h hs
  · intro ha
    rw [hshape]
    simp [ha]
  · intro sd ss zd zs qd hl hf
    exact quant_scale_fails env tensor out sd ss zd zs qd hl hf
  · intro sd ss zd zs qd scale hl hsc hf
    exact quant_zero_point_fails env tensor out sd ss zd zs qd scale hl hsc hf
  · intro param tr hsp ht hf
    exact sparsity_traversal_fails env tensor out param tr hsp ht hf
  · intro param tr bm val0 hsp ht h0 hb hf
    exact sparsity_block_map_fails env tensor out param tr bm val0 hsp ht h0 hb hf
  · intro param tr bm val0 val1 hsp ht h0 hb h1 hf
    exact sparsity_dim_metadata_fails env tensor out param tr bm val0 val1 hsp ht h0 hb h1 hf
  · intro ds k i n d hk hpre hd he
    exact loop_fails env ds k i n d hk hpre hd he
  · intro i d sg hf hs hfail
    exact entry_segments_fails env i d sg hf hs hfail
  · intro i d sg ix segments hf hs hok hi hfail
    exact entry_indices_fails env i d sg ix segments hf hs hok hi hfail
  · intro o h
    rw [hshape] at h
    cases ha : env.alloc_shape
    · simp [ha] at h
    · simp [ha] at h
      exact h.symm
  · intro o h
    rcases quant_status env tensor out 0 o h with h1 | h1
    · exact absurd h1.1 (by decide)
    · exact h1.2
  · intro heap self_nif p status o hres hlive hr hs
    exact dims_of_failure env heap self_nif p tensor status o hres hlive hr hs
  · intro heap self_nif p status o hres hlive hr hs
    exact quantization_of_failure env heap self_nif p tensor status o hres hlive hr hs
  · intro heap argv v h
    exact dims_ok_only env heap argv v h
  · intro heap argv v h
    exact quantization_ok_only env heap argv v h

/-- Instance of `no_partial_results`: with no memory the scale list of an
affine tensor fails, the helper returns 1 and both operations return their
allocation error. -/
theorem no_partial_results_witness :
    construction_fails (erlang.nif.make_f64_list_from_c_array env_no_memory.alloc_scale 1
      (some [1056964608]) none) ∧
    _tflitetensor_quantization_params env_no_memory tensor_affine none = .ok (1, none) ∧
    tflitetensor_quantization_params env_no_memory (heap_with tensor_affine) [handle16] =
      .ok (erlang.nif.error "cannot allocate memory for storing tensor quantization params") ∧
    tflitetensor_dims env_no_memory (heap_with tensor_affine) [handle16] =
      .ok (erlang.nif.error "cannot allocate memory for storing tensor shape") :=
  ⟨⟨1, none, rfl, by decide⟩,
    (no_partial_results env_no_memory tensor_affine none).2.1.2.1
      (some [1056964608]) 1 (some [128]) 1 0 rfl ⟨1, none, rfl, by decide⟩,
    (no_partial_results env_no_memory tensor_affine none).2.2.2.2.1
      (heap_with tensor_affine) handle16 16 1 none rfl rfl rfl (by decide),
    (no_partial_results env_no_memory tensor_affine none).2.2.2.1
      (heap_with tensor_affine) handle16 16 1 none rfl rfl rfl (by decide)⟩

/-- C8, as stated, fails: on a tensor resource whose native pointer is null
`tflitetensor_dims` returns the error with the reason "oh nyo erlang", which
is not in the vocabulary of the specification. -/
theorem null_resource_reason :
    tflitetensor_dims env_ok (heap_with tensor_allocated) [handle_null] =
      .ok (erlang.nif.error "oh nyo erlang") ∧
    spec_vocabulary "oh nyo erlang" = false :=
  ⟨rfl, rfl⟩

/-- C8, amended: every error result carries one of the reasons of its
operation.  For all five operations: "oh nyo erlang" and "cannot access
resource"; besides, for `tflitetensor_type` "invalid tensor", for
`tflitetensor_dims` "cannot allocate memory for storing tensor shape", for
`tflitetensor_quantization_params` "cannot allocate memory for storing tensor
quantization params", for `tflitetensor_to_binary` "cannot allocate enough
memory for the tensor", for `tflitetensor_set_data` "tensor is not allocated
yet? Please call TFLite.Interpreter.allocateTensors first" and "cannot get
input data".  No other reason, "invalid handle" included, is returned.
`tflitetensor_type` on a live handle returns the term of
`tensor_type_to_erl_term` as it is, and the error "invalid tensor" when that
function fails, so an error result of `tflitetensor_type` outside its list
can only be that term.  A resource whose native pointer is null fails with
"oh nyo erlang", and an argument that is not a tensor resource fails with
"cannot access resource". -/
theorem error_reasons (env : Env) (heap : Heap) (argv : List Term) (r : String) :
    ((tflitetensor_type env heap argv = .ok (erlang.nif.error r) →
        r ∈ ["invalid tensor", "oh nyo erlang", "cannot access resource"] ∨
        ∃ self_nif p tensor, argv = [self_nif] ∧
          enif_get_resource self_nif = some (some p) ∧ heap p = some tensor ∧
          env.tensor_type_to_erl_term (TfLiteTensorType tensor) =
            some (erlang.nif.error r)) ∧
      (tflitetensor_dims env heap argv = .ok (erlang.nif.error r) →
        r ∈ ["cannot allocate memory for storing tensor shape", "oh nyo erlang",
          "cannot access resource"]) ∧
      (tflitetensor_quantization_params env heap argv = .ok (erlang.nif.error r) →
        r ∈ ["cannot allocate memory for storing tensor quantization params",
          "oh nyo erlang", "cannot access resource"]) ∧
      (tflitetensor_to_binary env heap argv = .ok (erlang.nif.error r) →
        r ∈ ["cannot allocate enough memory for the tensor", "oh nyo erlang",
          "cannot access resource"]) ∧
      (∀ heap', tflitetensor_set_data env heap argv = .ok (erlang.nif.error r, heap') →
        r ∈ ["tensor is not allocated yet? Please call TFLite.Interpreter.allocateTensors first",
          "cannot get input data", "oh nyo erlang", "cannot access resource"])) ∧
    (∀ self_nif p tensor, enif_get_resource self_nif = some (some p) →
      heap p = some tensor →
      tflitetensor_type env heap [self_nif] =
        .ok (match env.tensor_type_to_erl_term (TfLiteTensorType tensor) with
          | some tensor_type => tensor_type
          | none => erlang.nif.error "invalid tensor")) ∧
    (∀ self_nif, enif_get_resource self_nif = some none →
      tflitetensor_type env heap [self_nif] = .ok (erlang.nif.error "oh nyo erlang") ∧
      tflitetensor_dims env heap [self_nif] = .ok (erlang.nif.error "oh nyo erlang") ∧
      tflitetensor_quantization_params env heap [self_nif] =
        .ok (erlang.nif.error "oh nyo erlang") ∧
      tflitetensor_to_binary env heap [self_nif] = .ok (erlang.nif.error "oh nyo erlang") ∧
      ∀ data_nif, tflitetensor_set_data env heap [self_nif, data_nif] =
        .ok (erlang.nif.error "oh nyo erlang", heap)) ∧
    (∀ self_nif, enif_get_resource self_nif = none →
      tflitetensor_type env heap [self_nif] = .ok (erlang.nif.error "cannot access resource") ∧
      tflitetensor_dims env heap [self_nif] = .ok (erlang.nif.error "cannot access resource") ∧
      tflitetensor_quantization_params env heap [self_nif] =
        .ok (erlang.nif.error "cannot access resource") ∧
      tflitetensor_to_binary env heap [self_nif] =
        .ok (erlang.nif.error "cannot access resource") ∧
      ∀ data_nif, tflitetensor_set_data env heap [self_nif, data_nif] =
        .ok (erlang.nif.error "cannot access resource", heap)) := by
  refine ⟨⟨type_reasons env heap argv r, dims_reasons env heap argv r,
    quantization_reasons env heap argv r, to_binary_reasons env heap argv r,
    fun heap' => set_data_reasons env heap heap' argv r⟩, ?_, ?_, ?_⟩
  · intro self_nif p tensor hres hlive
    exact type_live env heap self_nif p tensor hres hlive
  · intro self_nif h
    simp [tflitetensor_type, tflitetensor_dims, tflitetensor_quantization_params,
      tflitetensor_to_binary, tflitetensor_set_data, h]
  · intro self_nif h
    simp [tflitetensor_type, tflitetensor_dims, tflitetensor_quantization_params,
      tflitetensor_to_binary, tflitetensor_set_data, h]

/-- Instance of `error_reasons`: the allocation reason of
`tflitetensor_to_binary`, the input reason of `tflitetensor_set_data`, a null
resource, an argument that is no resource, and the type of a live tensor. -/
theorem error_reasons_witness :
    tflitetensor_to_binary env_no_memory (heap_with tensor_allocated) [handle16] =
      .ok (erlang.nif.error "cannot allocate enough memory for the tensor") ∧
    "cannot allocate enough memory for the tensor" ∈
      ["cannot allocate enough memory for the tensor", "oh nyo erlang",
        "cannot access resource"] ∧
    tflitetensor_set_data env_ok (heap_with tensor_allocated) [handle16, Term.atom "data"] =
      .ok (erlang.nif.error "cannot get input data", heap_with tensor_allocated) ∧
    "cannot get input data" ∈
      ["tensor is not allocated yet? Please call TFLite.Interpreter.allocateTensors first",
        "cannot get input data", "oh nyo erlang", "cannot access resource"] ∧
    tflitetensor_to_binary env_ok (heap_with tensor_allocated) [handle_null] =
      .ok (erlang.nif.error "oh nyo erlang") ∧
    tflitetensor_set_data env_ok (heap_with tensor_allocated)
        [Term.atom "tensor", Term.binary []] =
      .ok (erlang.nif.error "cannot access resource", heap_with tensor_allocated) ∧
    tflitetensor_type env_ok (heap_with tensor_allocated) [handle16] =
      .ok (erlang.nif.error "invalid tensor") :=
  ⟨rfl,
    (error_reasons env_no_memory (heap_with tensor_allocated) [handle16]
      "cannot allocate enough memory for the tensor").1.2.2.2.1 rfl,
    rfl,
    (error_reasons env_ok (heap_with tensor_allocated) [handle16, Term.atom "data"]
      "cannot get input data").1.2.2.2.2 (heap_with tensor_allocated) rfl,
    ((error_reasons env_ok (heap_with tensor_allocated) [] "").2.2.1 handle_null rfl).2.2.2.1,
    ((error_reasons env_ok (heap_with tensor_allocated) [] "").2.2.2
      (Term.atom "tensor") rfl).2.2.2.2 (Term.binary []),
    (error_reasons env_ok (heap_with tensor_allocated) [] "").2.1 handle16 16
      tensor_allocated rfl rfl⟩

end TFLite
